import Mathlib

/-!
# OSRM operator: child-resource builders

A shallow embedding of the builder code of `internal/resource`
(`deployment.go`, `service.go`, `gateway_service.go`,
`osrm_resource_builder.go`) together with the properties of the builders.

Conventions of the embedding.

* Go structs become Lean structures with the Go field names; an embedded
  struct becomes a parent structure (`extends`), so that promoted fields read
  as in Go (`builder.Instance.Name`).
* A Go pointer that may be nil becomes an `Option`; `map[string]string`
  becomes an association list of its entries.
* A Go `panic` (explicit, failed type assertion, nil dereference) is the
  error side of `Except Panic`; a returned Go `error` is an `Option String`
  next to the object as the method left it.
* `int32` fields are `Int`; no arithmetic is performed on them.
-/

set_option autoImplicit false
set_option linter.dupNamespace false
set_option linter.constructorNameAsVariable false

namespace OSRMOperator

/-! ## Kubernetes API objects (the fields the builders read or write) -/

/-- Go `map[string]string`. -/
abbrev StringMap := List (String × String)

/-- A parsed `resource.Quantity`, kept as the text it was parsed from. -/
structure Quantity where
  text : String
deriving DecidableEq, Repr

/-- The function `resource.MustParse`, on the literals of the sources (all well formed). -/
def MustParse (s : String) : Quantity := ⟨s⟩

/-- Go `corev1.ResourceList`, a map from resource name to quantity. -/
abbrev ResourceList := List (String × Quantity)

/-- Go `corev1.ResourceRequirements`. -/
structure ResourceRequirements where
  Limits : ResourceList := []
  Requests : ResourceList := []
deriving DecidableEq, Repr

/-- Go `metav1.OwnerReference`. -/
structure OwnerReference where
  APIVersion : String
  Kind : String
  Name : String
  UID : String
  Controller : Option Bool := none
  BlockOwnerDeletion : Option Bool := none
deriving DecidableEq, Repr

/-- Go `metav1.ObjectMeta`. -/
structure ObjectMeta where
  Name : String := ""
  Namespace : String := ""
  UID : String := ""
  Labels : StringMap := []
  Annotations : StringMap := []
  OwnerReferences : List OwnerReference := []
deriving DecidableEq, Repr

/-- Go `corev1.ContainerPort`. -/
structure ContainerPort where
  ContainerPort : Int
deriving DecidableEq, Repr

/-- Go `corev1.VolumeMount`. -/
structure VolumeMount where
  Name : String
  MountPath : String
deriving DecidableEq, Repr

/-- Go `corev1.Volume`; `PersistentVolumeClaim` is the claim name of a PVC-backed volume. -/
structure Volume where
  Name : String
  PersistentVolumeClaim : Option String := none
deriving DecidableEq, Repr

/-- Go `corev1.Container`. -/
structure Container where
  Name : String := ""
  Image : String := ""
  Command : List String := []
  Args : List String := []
  Ports : List ContainerPort := []
  Resources : ResourceRequirements := {}
  VolumeMounts : List VolumeMount := []
deriving DecidableEq, Repr

/-- Go `corev1.PodSpec`. -/
structure PodSpec where
  Volumes : List Volume := []
  Containers : List Container := []
deriving DecidableEq, Repr

/-- Go `corev1.PodTemplateSpec`. -/
structure PodTemplateSpec where
  ObjectMeta : ObjectMeta := {}
  Spec : PodSpec := {}
deriving DecidableEq, Repr

/-- Go `metav1.LabelSelector`. -/
structure LabelSelector where
  MatchLabels : StringMap := []
deriving DecidableEq, Repr

/-- Go `appsv1.DeploymentSpec`. -/
structure DeploymentSpec where
  Replicas : Option Int := none
  Selector : Option LabelSelector := none
  Template : PodTemplateSpec := {}
deriving DecidableEq, Repr

/-- Go `appsv1.Deployment`. -/
structure Deployment extends ObjectMeta where
  Spec : DeploymentSpec := {}
deriving DecidableEq, Repr

/-- Go `intstr.Type`. -/
inductive IntStrType where
  | Int
  | String
deriving DecidableEq, Repr

/-- Go `intstr.IntOrString`. -/
structure IntOrString where
  Type_ : IntStrType := IntStrType.Int
  IntVal : Int := 0
  StrVal : String := ""
deriving DecidableEq, Repr

/-- Go `corev1.Protocol`. -/
inductive Protocol where
  | unset
  | TCP
  | UDP
  | SCTP
deriving DecidableEq, Repr

/-- Go `corev1.ServiceType`. -/
inductive ServiceType where
  | unset
  | ClusterIP
  | NodePort
  | LoadBalancer
  | ExternalName
deriving DecidableEq, Repr

/-- Go `corev1.ServicePort`. -/
structure ServicePort where
  Name : String := ""
  Protocol : Protocol := Protocol.unset
  Port : Int := 0
  TargetPort : IntOrString := {}
  NodePort : Int := 0
deriving DecidableEq, Repr

/-- Go `corev1.ServiceSpec`; `ClusterIP` and `SessionAffinity` stand for the
fields the API server fills in. -/
structure K8sServiceSpec where
  Ports : List ServicePort := []
  Selector : StringMap := []
  ClusterIP : String := ""
  Type_ : ServiceType := ServiceType.unset
  SessionAffinity : String := ""
deriving DecidableEq, Repr

/-- Go `corev1.Service`. -/
structure Service extends ObjectMeta where
  Spec : K8sServiceSpec := {}
deriving DecidableEq, Repr

/-- Go `client.Object`, restricted to the kinds the embedded builders handle. -/
inductive ClientObject where
  | deployment (d : Deployment)
  | service (s : Service)
deriving DecidableEq, Repr

/-- Ways in which the embedded Go code can panic. -/
inductive Panic where
  | message (msg : String)
  | typeAssertion
  | nilDereference
deriving DecidableEq, Repr

/-! ## The custom resource

The builder sources read `Spec.Image`, `Spec.Profiles`, `Spec.Service`, the
cluster name, namespace, labels and UID.  `deployment.go` reads
`Spec.Profiles` as a record of three optional profile specs, whereas
`osrm_resource_builder.go` ranges over it as a sequence; the cluster type is
therefore parametric in the shape of `Profiles`, and each source file is
embedded against the shape it uses. -/

/-- Go `osrmv1alpha1.ProfileSpec`, with the fields the builders and the
controller tests use. -/
structure ProfileSpec where
  Name : String := ""
  EndpointName : String := ""
  InternalEndpoint : Option String := none
  OSRMProfile : Option String := none
  MinReplicas : Option Int := none
  MaxReplicas : Option Int := none
  Resources : Option ResourceRequirements := none
deriving DecidableEq, Repr

/-- Go `osrmv1alpha1.ServiceSpec`. -/
structure ServiceSpec where
  Type_ : Option ServiceType := none
  Annotations : Option StringMap := none
  ExposingServices : List String := []
deriving DecidableEq, Repr

/-- The shape of `Spec.Profiles` that `deployment.go` reads. -/
structure ProfilesSpec where
  Driving : Option ProfileSpec := none
  Cycling : Option ProfileSpec := none
  Foot : Option ProfileSpec := none
deriving DecidableEq, Repr

/-- Go `osrmv1alpha1.OSRMClusterSpec`, parametric in the shape of `Profiles`. -/
structure OSRMClusterSpec (P : Type) where
  Image : Option String := none
  Profiles : P
  Service : ServiceSpec := {}
deriving DecidableEq, Repr

/-- Go `osrmv1alpha1.OSRMCluster`. -/
structure OSRMCluster (P : Type) extends ObjectMeta where
  Spec : OSRMClusterSpec P
deriving DecidableEq, Repr

/-! ## `controllerutil.SetControllerReference` (controller-runtime) -/

/-- Go `schema.GroupVersionKind`. -/
structure GroupVersionKind where
  Group : String
  Version : String
  Kind : String
deriving DecidableEq, Repr

/-- Go `runtime.Scheme`, as far as the builders use it: the group-version-kinds
registered for the `OSRMCluster` Go type. -/
structure Scheme where
  kinds : List GroupVersionKind
deriving DecidableEq, Repr

/-- Go `GroupVersion.String`. -/
def GroupVersionKind.apiVersion (gvk : GroupVersionKind) : String :=
  if gvk.Group.length > 0 then gvk.Group ++ "/" ++ gvk.Version else gvk.Version

/-- The group that `schema.ParseGroupVersion` extracts, `none` when it reports
an error (more than one slash). -/
def parseGroup (apiVersion : String) : Option String :=
  let cs := apiVersion.toList
  match cs.dropWhile (fun c => c != '/') with
  | [] => some ""
  | _ :: rest =>
    if rest.contains '/' then none
    else some (String.mk (cs.takeWhile (fun c => c != '/')))

/-- Go `referSameObject` of controllerutil: same group, kind and name. -/
def referSameObject (a b : OwnerReference) : Bool :=
  match parseGroup a.APIVersion, parseGroup b.APIVersion with
  | some ga, some gb => ga == gb && a.Kind == b.Kind && a.Name == b.Name
  | _, _ => false

/-- Go `metav1.GetControllerOf`: the first owner reference marked as controller. -/
def GetControllerOf (refs : List OwnerReference) : Option OwnerReference :=
  refs.find? (fun r => r.Controller == some true)

/-- Go `upsertOwnerRef`: replace the reference to the same object, else append. -/
def upsertOwnerRef (ref : OwnerReference) : List OwnerReference → List OwnerReference
  | [] => [ref]
  | r :: rs => if referSameObject r ref then ref :: rs else r :: upsertOwnerRef ref rs

/-- Go `apiutil.GVKForObject` on the cluster: exactly one registered kind. -/
def GVKForObject (scheme : Scheme) : Except String GroupVersionKind :=
  match scheme.kinds with
  | [] => .error "no kind is registered for the type v1alpha1.OSRMCluster"
  | [gvk] => .ok gvk
  | _ => .error "multiple group-version-kinds associated with type v1alpha1.OSRMCluster"

/-- Go `validateOwner`: a namespaced owner needs an object in its own namespace. -/
def validateOwner (ownerNs objNs : String) : Except String Unit :=
  if ownerNs != "" then
    if objNs == "" then
      .error ("cluster-scoped resource must not have a namespace-scoped owner, owner's namespace "
        ++ ownerNs)
    else if ownerNs != objNs then
      .error ("cross-namespace owner references are disallowed, owner's namespace " ++ ownerNs
        ++ ", obj's namespace " ++ objNs)
    else .ok ()
  else .ok ()

/-- Go `controllerutil.SetControllerReference`: the metadata of the controlled
object with the controller reference set, or the error. -/
def SetControllerReference {P : Type} (owner : OSRMCluster P) (controlled : ObjectMeta)
    (scheme : Scheme) : Except String ObjectMeta := do
  validateOwner owner.Namespace controlled.Namespace
  let gvk ← GVKForObject scheme
  let ref : OwnerReference :=
    { APIVersion := gvk.apiVersion, Kind := gvk.Kind, Name := owner.Name, UID := owner.UID,
      BlockOwnerDeletion := some true, Controller := some true }
  match GetControllerOf controlled.OwnerReferences with
  | some existing =>
    if referSameObject existing ref then
      .ok { controlled with OwnerReferences := upsertOwnerRef ref controlled.OwnerReferences }
    else
      .error ("Object " ++ controlled.Namespace ++ "/" ++ controlled.Name
        ++ " is already owned by another " ++ existing.Kind ++ " controller " ++ existing.Name)
  | none =>
    .ok { controlled with OwnerReferences := upsertOwnerRef ref controlled.OwnerReferences }

/-! ## `internal/resource`: the builders -/

/-- Go `OSRMResourceBuilder`. -/
structure OSRMResourceBuilder (P : Type) where
  Instance : OSRMCluster P
  Scheme : Scheme
deriving DecidableEq, Repr

/-- Go `errors`: what `Update` returns. -/
abbrev GoError := Option String

/-! ### `deployment.go` -/

/-- Go `OSRMProfile`, a string type. -/
abbrev OSRMProfile := String

/-- Modelled from the spec: the constant `DrivingProfile`, whose declaration is
not among the sources; named after the supported profile `driving`. -/
def DrivingProfile : OSRMProfile := "driving"

/-- Modelled from the spec: the constant `CyclingProfile`, whose declaration is
not among the sources; named after the supported profile `cycling`. -/
def CyclingProfile : OSRMProfile := "cycling"

/-- Modelled from the spec: the constant `FootProfile`, whose declaration is
not among the sources; named after the supported profile `foot`. -/
def FootProfile : OSRMProfile := "foot"

def osrmContainerName : String := "osrm-backend"

def defaultImage : String := "osrm/osrm-backend"

/-- Go `BaseBuilder`: the profile a profile builder of `deployment.go` works for. -/
structure BaseBuilder where
  profile : OSRMProfile
deriving DecidableEq, Repr

/-- Go `DeploymentBuilder`. -/
structure DeploymentBuilder extends BaseBuilder, OSRMResourceBuilder ProfilesSpec
deriving DecidableEq, Repr

def OSRMResourceBuilder.Deployment (builder : OSRMResourceBuilder ProfilesSpec)
    (profile : OSRMProfile) : DeploymentBuilder :=
  { profile := profile, Instance := builder.Instance, Scheme := builder.Scheme }

def DeploymentBuilder.Build (builder : DeploymentBuilder) : ClientObject × GoError :=
  (ClientObject.deployment
    { Name := builder.Instance.Name ++ "-" ++ builder.profile,
      Namespace := builder.Instance.Namespace },
   none)

def DeploymentBuilder.getProfileSpec (builder : DeploymentBuilder) :
    Except Panic (Option ProfileSpec) :=
  if builder.profile = DrivingProfile then .ok builder.Instance.Spec.Profiles.Driving
  else if builder.profile = CyclingProfile then .ok builder.Instance.Spec.Profiles.Cycling
  else if builder.profile = FootProfile then .ok builder.Instance.Spec.Profiles.Foot
  else .error (Panic.message ("Profile " ++ builder.profile ++ " is not supported"))

def DeploymentBuilder.getImage (builder : DeploymentBuilder) : String :=
  match builder.Instance.Spec.Image with
  | some image => image
  | none => defaultImage

/-- The type assertion `object.(*appsv1.Deployment)`. -/
def ClientObject.toDeployment : ClientObject → Except Panic Deployment
  | ClientObject.deployment d => .ok d
  | _ => .error Panic.typeAssertion

/-- The type assertion `object.(*corev1.Service)`. -/
def ClientObject.toService : ClientObject → Except Panic Service
  | ClientObject.service s => .ok s
  | _ => .error Panic.typeAssertion

/-- A field read through a possibly nil pointer. -/
def deref {α : Type} : Option α → Except Panic α
  | some a => .ok a
  | none => .error Panic.nilDereference

def DeploymentBuilder.Update (builder : DeploymentBuilder) (object : ClientObject) :
    Except Panic (ClientObject × GoError) := do
  let name := builder.Instance.Name ++ "-" ++ builder.profile
  let deployment ← object.toDeployment
  let profileSpec ← builder.getProfileSpec
  let profileSpec ← deref profileSpec
  let deployment : Deployment :=
    { deployment with
      Spec :=
        { Replicas := profileSpec.MinReplicas,
          Selector := some { MatchLabels := [("app", name)] },
          Template :=
            { ObjectMeta := { Labels := [("app", name)] },
              Spec :=
                { Containers :=
                    [{ Name := osrmContainerName,
                       Image := builder.getImage,
                       Ports := [{ ContainerPort := 5000 }],
                       Resources :=
                         { Requests := [("memory", MustParse "100Mi"), ("cpu", MustParse "1")] },
                       Command := ["osrm-routed", "--algorithm", "mld"],
                       Args := ["/data/berlin-latest.osrm"] }] } } } }
  match SetControllerReference builder.Instance deployment.toObjectMeta builder.Scheme with
  | .error err =>
    pure (ClientObject.deployment deployment,
      some ("failed setting controller reference: " ++ err))
  | .ok om =>
    pure (ClientObject.deployment { deployment with toObjectMeta := om }, none)


/-! ### Parts of the repository outside the builder sources -/

/-- Go `runtime.Object` as observed by the controller: a kind, a name, and the
status the readiness helpers look at. -/
structure RuntimeObject where
  Kind : String
  Name : String
  Phase : String := ""
  Succeeded : Int := 0
deriving DecidableEq, Repr

/-- The helper packages `internal/metadata` and `internal/status`, whose sources
are not among the builder sources: the builders are embedded for any
implementation of the four helpers they call. -/
structure Internal where
  /-- The function `metadata.GetLabels(instanceName, instanceLabels)`. -/
  GetLabels : String → StringMap → StringMap
  /-- The function `metadata.ReconcileAnnotations(existing, defaults)`. -/
  ReconcileAnnotations : StringMap → StringMap → StringMap
  /-- The function `status.IsPersistentVolumeClaimBound(name, resources)`. -/
  IsPersistentVolumeClaimBound : String → List RuntimeObject → Bool
  /-- The function `status.IsJobCompleted(name, resources)`. -/
  IsJobCompleted : String → List RuntimeObject → Bool

/-- Modelled from the spec: the method `OSRMCluster.ChildResourceName`, declared
outside the builder sources.  A child's name is a function of the cluster
name, the profile name and the suffix, computed as the lookup helpers of the
controller test compute it: the cluster name, then `-` and the profile name
when there is one, then `-` and the suffix when it is not empty. -/
def OSRMCluster.ChildResourceName {P : Type} (cluster : OSRMCluster P)
    (profileName suffix : String) : String :=
  let name := if profileName.length > 0 then cluster.Name ++ "-" ++ profileName else cluster.Name
  if suffix.length > 0 then name ++ "-" ++ suffix else name

/-- Modelled from the spec: the method `ServiceSpec.GetType`, declared outside
the builder sources: the declared type, `ClusterIP` by default. -/
def ServiceSpec.GetType (spec : ServiceSpec) : ServiceType :=
  match spec.Type_ with
  | some t => t
  | none => ServiceType.ClusterIP

/-- Modelled from the spec: the constant `ServiceSuffix`, declared outside the
builder sources; the Service selector is `app=<clusterName-profileName>`, the
name without a suffix. -/
def ServiceSuffix : String := ""

/-- Modelled from the spec: the constant `PersistentVolumeClaimSuffix`, declared
outside the builder sources; the suffix `pvc` of the naming scheme. -/
def PersistentVolumeClaimSuffix : String := "pvc"

/-- Modelled from the spec: the constant `JobSuffix`, declared outside the
builder sources; the suffix `job` of the naming scheme. -/
def JobSuffix : String := "job"

/-- Modelled from the spec: the constant `gatewayPostfix`, declared outside the
builder sources; the gateway selector is `app=<clusterName>-gateway`. -/
def gatewayPostfix : String := "gateway"

/-! ### `service.go` -/

/-- Go `ProfileScopedBuilder`.  The Go field is a `*ProfileSpec` that is never
nil (its only origin is `&profile` in `ResourceBuilders`); the embedding of
the builder methods keeps the profile spec the pointer refers to when the
method runs. -/
structure ProfileScopedBuilder where
  profile : ProfileSpec
deriving DecidableEq, Repr

/-- Go `ServiceBuilder`. -/
structure ServiceBuilder extends ProfileScopedBuilder, OSRMResourceBuilder (List ProfileSpec)
deriving DecidableEq, Repr

def OSRMResourceBuilder.Service (builder : OSRMResourceBuilder (List ProfileSpec))
    (profile : ProfileSpec) : ServiceBuilder :=
  { profile := profile, Instance := builder.Instance, Scheme := builder.Scheme }

def ServiceBuilder.Build (builder : ServiceBuilder) : ClientObject × GoError :=
  (ClientObject.service
    { Name := builder.Instance.ChildResourceName builder.profile.Name ServiceSuffix,
      Namespace := builder.Instance.Namespace },
   none)

def ServiceBuilder.setAnnotations (pkg : Internal) (builder : ServiceBuilder)
    (service : Service) : Service :=
  match builder.Instance.Spec.Service.Annotations with
  | some annotations =>
    { service with Annotations := pkg.ReconcileAnnotations service.Annotations annotations }
  | none => service

def ServiceBuilder.Update (pkg : Internal) (builder : ServiceBuilder) (object : ClientObject) :
    Except Panic (ClientObject × GoError) := do
  let name := builder.Instance.ChildResourceName builder.profile.Name ServiceSuffix
  let service ← object.toService
  let service : Service :=
    { service with Labels := pkg.GetLabels builder.Instance.Name builder.Instance.Labels }
  let service : Service :=
    { service with
      Spec :=
        { service.Spec with
          Ports :=
            [{ Name := name ++ "-port",
               Protocol := Protocol.TCP,
               Port := 80,
               TargetPort := { Type_ := IntStrType.Int, IntVal := 5000 } }] } }
  let service : Service :=
    { service with Spec := { service.Spec with Selector := [("app", name)] } }
  let service : Service :=
    { service with Spec := { service.Spec with Type_ := builder.Instance.Spec.Service.GetType } }
  let service := builder.setAnnotations pkg service
  match SetControllerReference builder.Instance service.toObjectMeta builder.Scheme with
  | .error err =>
    pure (ClientObject.service service, some ("failed setting controller reference: " ++ err))
  | .ok om =>
    pure (ClientObject.service { service with toObjectMeta := om }, none)

def ServiceBuilder.ShouldDeploy (pkg : Internal) (builder : ServiceBuilder)
    (resources : List RuntimeObject) : Bool :=
  pkg.IsPersistentVolumeClaimBound
      (builder.Instance.ChildResourceName builder.profile.Name PersistentVolumeClaimSuffix)
      resources &&
    pkg.IsJobCompleted
      (builder.Instance.ChildResourceName builder.profile.Name JobSuffix)
      resources

/-! ### `gateway_service.go` -/

/-- Go `ClusterScopedBuilder`. -/
structure ClusterScopedBuilder where
  profiles : List String
deriving DecidableEq, Repr

/-- Go `GatewayServiceBuilder`. -/
structure GatewayServiceBuilder extends ClusterScopedBuilder,
    OSRMResourceBuilder (List ProfileSpec)
deriving DecidableEq, Repr

def OSRMResourceBuilder.GatewayServiceBuilder (builder : OSRMResourceBuilder (List ProfileSpec))
    (profiles : List String) : GatewayServiceBuilder :=
  { profiles := profiles, Instance := builder.Instance, Scheme := builder.Scheme }

def GatewayServiceBuilder.Build (builder : GatewayServiceBuilder) : ClientObject × GoError :=
  (ClientObject.service
    { Name := builder.Instance.Name,
      Namespace := builder.Instance.Namespace },
   none)

def GatewayServiceBuilder.Update (pkg : Internal) (builder : GatewayServiceBuilder)
    (object : ClientObject) : Except Panic (ClientObject × GoError) := do
  let service ← object.toService
  let service : Service :=
    { service with Labels := pkg.GetLabels builder.Instance.Name builder.Instance.Labels }
  let service : Service :=
    { service with Spec := { service.Spec with Type_ := ServiceType.ClusterIP } }
  let service : Service :=
    { service with
      Spec :=
        { service.Spec with
          Ports :=
            [{ Name := builder.Instance.Name ++ "-port",
               Protocol := Protocol.TCP,
               Port := 80,
               TargetPort := { Type_ := IntStrType.Int, IntVal := 80 } }] } }
  let service : Service :=
    { service with
      Spec :=
        { service.Spec with
          Selector := [("app", builder.Instance.Name ++ "-" ++ gatewayPostfix)] } }
  match SetControllerReference builder.Instance service.toObjectMeta builder.Scheme with
  | .error err =>
    pure (ClientObject.service service, some ("failed setting controller reference: " ++ err))
  | .ok om =>
    pure (ClientObject.service { service with toObjectMeta := om }, none)

/-! ### `osrm_resource_builder.go` -/

/-- The variables of `ResourceBuilders` whose address is taken: the range
variable `profile`.  The operator is written for a Go release before 1.22,
where a `for ... := range` statement declares its variable once for the whole
loop, so `&profile` is the same pointer in every iteration. -/
inductive Var where
  | profile
deriving DecidableEq, Repr

/-- The memory behind the pointers held by the builders: the current value of
each variable, `none` while it has not been assigned. -/
abbrev Store := Var → Option ProfileSpec

/-- Assignment to a variable. -/
def Store.assign (store : Store) (x : Var) (v : ProfileSpec) : Store :=
  fun y => if y = x then some v else store y

/-- Go `ResourceBuilder`, the interface, as the closed set of builders of the
catalog.  A profile-scoped builder holds the `*ProfileSpec` it was created
with, a cluster-scoped builder the profile names (and, for the ConfigMap, the
endpoint names).  The PodDisruptionBudget builder is part of the catalog (the
controller test expects the child), although `ResourceBuilders` does not
create one. -/
inductive ResourceBuilder where
  | deployment (profile : Var)
  | service (profile : Var)
  | job (profile : Var)
  | horizontalPodAutoscaler (profile : Var)
  | persistentVolumeClaim (profile : Var)
  | podDisruptionBudget (profile : Var)
  | configMap (profiles profilesEndpoints : List String)
  | gatewayService (profiles : List String)
  | gatewayDeployment (profiles : List String)
deriving DecidableEq, Repr

/-- The local state of `ResourceBuilders` while it runs. -/
structure BuildersState where
  builders : List ResourceBuilder := []
  profilesEndpoints : List String := []
  profiles : List String := []
  store : Store := fun _ => none

/-- One iteration of the range loop of `ResourceBuilders`: the element is
assigned to the range variable, whose fields are read and whose address is
handed to the five builders. -/
def ResourceBuilders.iteration (st : BuildersState) (element : ProfileSpec) : BuildersState :=
  { store := st.store.assign Var.profile element,
    profilesEndpoints := st.profilesEndpoints ++ [element.EndpointName],
    profiles := st.profiles ++ [element.Name],
    builders := st.builders ++
      [ResourceBuilder.deployment Var.profile,
       ResourceBuilder.service Var.profile,
       ResourceBuilder.job Var.profile,
       ResourceBuilder.horizontalPodAutoscaler Var.profile,
       ResourceBuilder.persistentVolumeClaim Var.profile] }

/-- The range loop of `ResourceBuilders`. -/
def ResourceBuilders.loop (elements : List ProfileSpec) : BuildersState :=
  elements.foldl ResourceBuilders.iteration {}

/-- Go `OSRMResourceBuilder.ResourceBuilders`: the returned slice, together with
the memory the pointers held by its builders refer to. -/
def OSRMResourceBuilder.ResourceBuilders (builder : OSRMResourceBuilder (List ProfileSpec)) :
    List ResourceBuilder × Store :=
  let st := ResourceBuilders.loop builder.Instance.Spec.Profiles
  if st.builders.length > 0 then
    (st.builders ++
      [ResourceBuilder.configMap st.profiles st.profilesEndpoints,
       ResourceBuilder.gatewayService st.profiles,
       ResourceBuilder.gatewayDeployment st.profiles],
     st.store)
  else
    (st.builders, st.store)

/-- The Service builder behind an element of the slice returned by
`ResourceBuilders`, with its profile pointer read in the given memory. -/
def ResourceBuilder.toServiceBuilder (builder : OSRMResourceBuilder (List ProfileSpec))
    (store : Store) : ResourceBuilder → Option ServiceBuilder
  | ResourceBuilder.service x => (store x).map (fun p => builder.Service p)
  | _ => none

/-- The profile an element of the slice returned by `ResourceBuilders` works
for, when it is profile scoped: its pointer read in the given memory. -/
def ResourceBuilder.profileOf (store : Store) : ResourceBuilder → Option ProfileSpec
  | ResourceBuilder.deployment x => store x
  | ResourceBuilder.service x => store x
  | ResourceBuilder.job x => store x
  | ResourceBuilder.horizontalPodAutoscaler x => store x
  | ResourceBuilder.persistentVolumeClaim x => store x
  | ResourceBuilder.podDisruptionBudget x => store x
  | _ => none

/-- Whether a builder is one of the three cluster-scoped gateway builders. -/
def ResourceBuilder.isGateway : ResourceBuilder → Bool
  | ResourceBuilder.configMap _ _ => true
  | ResourceBuilder.gatewayService _ => true
  | ResourceBuilder.gatewayDeployment _ => true
  | _ => false

/-- Whether a builder is the PodDisruptionBudget builder. -/
def ResourceBuilder.isPodDisruptionBudget : ResourceBuilder → Bool
  | ResourceBuilder.podDisruptionBudget _ => true
  | _ => false

/-! ## Observations on objects and on the builder list -/

/-- Go `GetName` of `client.Object`. -/
def ClientObject.GetName : ClientObject → String
  | ClientObject.deployment d => d.Name
  | ClientObject.service s => s.Name

/-- What an `Update` leaves in the object, whether or not it returned an error;
`none` when it panicked. -/
def objectAfter : Except Panic (ClientObject × GoError) → Option ClientObject
  | .ok (o, _) => some o
  | .error _ => none

/-- The resources of the first container of a Deployment object. -/
def firstContainerResources : ClientObject → Option ResourceRequirements
  | ClientObject.deployment d => d.Spec.Template.Spec.Containers.head?.map (fun c => c.Resources)
  | _ => none

/-- The resource requirements that the profile spec of a Deployment builder provides. -/
def DeploymentBuilder.profileResources (builder : DeploymentBuilder) :
    Option ResourceRequirements :=
  match builder.getProfileSpec with
  | .ok (some profileSpec) => profileSpec.Resources
  | _ => none

/-- Whether the pod template of a Deployment mounts a PersistentVolumeClaim: the
pod spec declares a volume backed by a claim and some container has a volume
mount for that volume. -/
def Deployment.mountsClaim (d : Deployment) : Bool :=
  d.Spec.Template.Spec.Volumes.any (fun v =>
    v.PersistentVolumeClaim.isSome &&
      d.Spec.Template.Spec.Containers.any (fun c =>
        c.VolumeMounts.any (fun m => m.Name == v.Name)))

/-- Whether the pod template of the Deployment an `Update` leaves mounts a claim. -/
def mountsClaimAfter (r : Except Panic (ClientObject × GoError)) : Option Bool :=
  match objectAfter r with
  | some (ClientObject.deployment d) => some d.mountsClaim
  | _ => none

/-- The five builders appended by one iteration of the range loop of
`ResourceBuilders`, each holding `&profile`. -/
def profileGroup : List ResourceBuilder :=
  [ResourceBuilder.deployment Var.profile,
   ResourceBuilder.service Var.profile,
   ResourceBuilder.job Var.profile,
   ResourceBuilder.horizontalPodAutoscaler Var.profile,
   ResourceBuilder.persistentVolumeClaim Var.profile]

/-- The name of the Service that the `i`-th builder of the list returned by
`ResourceBuilders` builds, when that builder is a Service builder. -/
def builtServiceName (builder : OSRMResourceBuilder (List ProfileSpec)) (i : Nat) :
    Option String :=
  ((builder.ResourceBuilders.1.get? i).bind
      (ResourceBuilder.toServiceBuilder builder builder.ResourceBuilders.2)).map
    (fun b => b.Build.1.GetName)

/-- Go `GetOwnerReferences` of `client.Object`. -/
def ClientObject.GetOwnerReferences : ClientObject → List OwnerReference
  | ClientObject.deployment d => d.OwnerReferences
  | ClientObject.service s => s.OwnerReferences

/-- Go `GetLabels` of `client.Object`. -/
def ClientObject.GetLabels : ClientObject → StringMap
  | ClientObject.deployment d => d.Labels
  | ClientObject.service s => s.Labels

/-- The controller reference that `SetControllerReference` builds for the
cluster under a registered group-version-kind. -/
def controllerReference {P : Type} (owner : OSRMCluster P) (gvk : GroupVersionKind) :
    OwnerReference :=
  { APIVersion := gvk.apiVersion, Kind := gvk.Kind, Name := owner.Name, UID := owner.UID,
    BlockOwnerDeletion := some true, Controller := some true }

/-- An owner reference points at the cluster as its controller: the cluster's
name and UID, marked as controller. -/
def OwnerReference.pointsAt {P : Type} (r : OwnerReference) (cluster : OSRMCluster P) : Prop :=
  r.Name = cluster.Name ∧ r.UID = cluster.UID ∧ r.Controller = some true

/-- The object is already controlled by a different owner: it has a controller
reference, and that reference does not refer to the cluster under any kind the
scheme registers for it. -/
def controlledByAnother {P : Type} (owner : OSRMCluster P) (scheme : Scheme)
    (refs : List OwnerReference) : Bool :=
  match GetControllerOf refs with
  | some existing =>
    scheme.kinds.all (fun gvk => !referSameObject existing (controllerReference owner gvk))
  | none => false

/-- The API versions under which the scheme registers the cluster type are
group/version strings that `schema.ParseGroupVersion` accepts (no group or
version with a slash in it). -/
def Scheme.WellFormed (scheme : Scheme) : Prop :=
  ∀ gvk ∈ scheme.kinds, (parseGroup gvk.apiVersion).isSome = true

/-- A profile value is one of the profiles `getProfileSpec` supports. -/
def OSRMProfile.supported (profile : OSRMProfile) : Prop :=
  profile = DrivingProfile ∨ profile = CyclingProfile ∨ profile = FootProfile

/-- The object an `Update` leaves, for an `Update` that returned (an empty
Service stands in when it panicked). -/
def resultObject (r : Except Panic (ClientObject × GoError)) : ClientObject :=
  (objectAfter r).getD (ClientObject.service {})

/-- The `spec.replicas` of a Deployment object. -/
def ClientObject.replicas : ClientObject → Option (Option Int)
  | ClientObject.deployment d => some d.Spec.Replicas
  | _ => none

/-- The pod spec of the pod template of the Deployment an `Update` leaves. -/
def podSpecAfter (r : Except Panic (ClientObject × GoError)) : Option PodSpec :=
  match objectAfter r with
  | some (ClientObject.deployment d) => some d.Spec.Template.Spec
  | _ => none

/-! ## Example inputs -/

/-- The scheme of the operator: one kind registered for the cluster type. -/
def exampleScheme : Scheme :=
  { kinds := [{ Group := "osrm.itayankri", Version := "v1alpha1", Kind := "OSRMCluster" }] }

/-- Modelled from the spec: an implementation of the helper packages
`internal/metadata` and `internal/status`, which are not among the builder
sources.  The labels are `app.kubernetes.io/name=osrm` and
`app.kubernetes.io/instance=<clusterName>` followed by the cluster's own
labels; reconciled annotations are the defaults followed by the existing
annotations under other keys; a PVC is bound when an observed PersistentVolumeClaim of that name has
phase `Bound`; a Job is completed when an observed Job of that name has a
succeeded pod. -/
def exampleInternal : Internal :=
  { GetLabels := fun instanceName instanceLabels =>
      [("app.kubernetes.io/name", "osrm"), ("app.kubernetes.io/instance", instanceName)]
        ++ instanceLabels,
    ReconcileAnnotations := fun existing defaults =>
      defaults ++ existing.filter (fun kv => !defaults.any (fun d => d.1 == kv.1)),
    IsPersistentVolumeClaimBound := fun name resources =>
      resources.any (fun r =>
        r.Kind == "PersistentVolumeClaim" && r.Name == name && r.Phase == "Bound"),
    IsJobCompleted := fun name resources =>
      resources.any (fun r => r.Kind == "Job" && r.Name == name && decide (0 < r.Succeeded)) }

/-- Resource requirements of 4Gi memory, limits and requests, as in the
controller test "uses resource requirements from profile spec when provided". -/
def resources4Gi : ResourceRequirements :=
  { Limits := [("memory", MustParse "4Gi")], Requests := [("memory", MustParse "4Gi")] }

/-- A cluster `rr-config` in namespace `default` whose driving profile asks for
4Gi of memory. -/
def rrConfigCluster : OSRMCluster ProfilesSpec :=
  { Name := "rr-config", Namespace := "default", UID := "uid-rr-config",
    Spec :=
      { Profiles :=
          { Driving := some
              { Name := "driving", EndpointName := "driving", MinReplicas := some 1,
                MaxReplicas := some 3, Resources := some resources4Gi } } } }

/-- The Deployment builder of `rr-config` for the driving profile. -/
def rrConfigDrivingBuilder : DeploymentBuilder :=
  OSRMResourceBuilder.Deployment { Instance := rrConfigCluster, Scheme := exampleScheme }
    DrivingProfile

/-- The Deployment builder of `rr-config` for a profile named `car`. -/
def rrConfigCarBuilder : DeploymentBuilder :=
  OSRMResourceBuilder.Deployment { Instance := rrConfigCluster, Scheme := exampleScheme } "car"

/-- A cluster `no-profiles` that declares no profile. -/
def noProfilesBuilder : OSRMResourceBuilder (List ProfileSpec) :=
  { Instance := { Name := "no-profiles", Namespace := "default", Spec := { Profiles := [] } },
    Scheme := exampleScheme }

/-- A cluster `gc-a` that declares the profiles `car` and `foot`, in this order. -/
def gcABuilder : OSRMResourceBuilder (List ProfileSpec) :=
  { Instance :=
      { Name := "gc-a", Namespace := "default", UID := "uid-gc-a",
        Spec :=
          { Profiles :=
              [{ Name := "car", EndpointName := "driving", MinReplicas := some 1,
                 MaxReplicas := some 3 },
               { Name := "foot", EndpointName := "walking", MinReplicas := some 1,
                 MaxReplicas := some 3 }] } },
    Scheme := exampleScheme }

/-- The Service builder of `gc-a` for its profile `car`. -/
def gcACarServiceBuilder : ServiceBuilder :=
  gcABuilder.Service { Name := "car", EndpointName := "driving", MinReplicas := some 1,
                       MaxReplicas := some 3 }

/-- A Service as read back from the API server, with a node port, a cluster IP
and a port the operator did not write. -/
def liveService : Service :=
  { Name := "gc-a-car", Namespace := "default",
    Spec :=
      { Ports := [{ Name := "metrics", Protocol := Protocol.TCP, Port := 9090 },
                  { Name := "old", Protocol := Protocol.UDP, Port := 53 }],
        ClusterIP := "10.0.0.7", Type_ := ServiceType.ClusterIP } }

/-- A cluster `undeclared` that declares none of the three profiles. -/
def undeclaredCluster : OSRMCluster ProfilesSpec :=
  { Name := "undeclared", Namespace := "default", UID := "uid-undeclared",
    Spec := { Profiles := {} } }

/-- The Deployment builder of `undeclared` for the supported profile `driving`. -/
def undeclaredDrivingBuilder : DeploymentBuilder :=
  OSRMResourceBuilder.Deployment { Instance := undeclaredCluster, Scheme := exampleScheme }
    DrivingProfile

/-- The gateway Service builder of `gc-a`. -/
def gcAGatewayBuilder : GatewayServiceBuilder :=
  gcABuilder.GatewayServiceBuilder ["car", "foot"]

/-- A cluster `gc-a` whose Service spec carries an annotation, with the profile `driving`. -/
def annotatedBuilder : OSRMResourceBuilder (List ProfileSpec) :=
  { Instance :=
      { Name := "gc-a", Namespace := "default", UID := "uid-gc-a",
        Labels := [("team", "maps")],
        Spec :=
          { Profiles := [{ Name := "driving", EndpointName := "driving" }],
            Service := { Annotations := some [("example.com/owner", "maps")] } } },
    Scheme := exampleScheme }

/-- The Service builder of the annotated `gc-a` for its profile `driving`. -/
def annotatedServiceBuilder : ServiceBuilder :=
  annotatedBuilder.Service { Name := "driving", EndpointName := "driving" }

/-- The controller reference of another owner, a Deployment named `someone-else`. -/
def foreignReference : OwnerReference :=
  { APIVersion := "apps/v1", Kind := "Deployment", Name := "someone-else", UID := "uid-other",
    Controller := some true, BlockOwnerDeletion := some true }

/-- A Service in namespace `default` that is controlled by another owner. -/
def foreignService : Service :=
  { Name := "gc-a-car", Namespace := "default", OwnerReferences := [foreignReference] }

/-- A Deployment in namespace `default` that is controlled by another owner. -/
def foreignDeployment : Deployment :=
  { Name := "rr-config-driving", Namespace := "default", OwnerReferences := [foreignReference] }

/-- The Deployment builder of a cluster named `c` for the profile value `p`. -/
def deploymentBuilderOf (c : String) (p : OSRMProfile) : DeploymentBuilder :=
  OSRMResourceBuilder.Deployment
    { Instance := { Name := c, Namespace := "default", Spec := { Profiles := {} } },
      Scheme := exampleScheme } p

/-- The Service builder of a cluster named `c` for a profile named `p`. -/
def serviceBuilderOf (c p : String) : ServiceBuilder :=
  OSRMResourceBuilder.Service
    { Instance := { Name := c, Namespace := "default", Spec := { Profiles := [{ Name := p }] } },
      Scheme := exampleScheme } { Name := p }

/-- The gateway Service builder of a cluster named `c` with one profile named `p`. -/
def gatewayBuilderOf (c p : String) : GatewayServiceBuilder :=
  OSRMResourceBuilder.GatewayServiceBuilder
    { Instance := { Name := c, Namespace := "default", Spec := { Profiles := [{ Name := p }] } },
      Scheme := exampleScheme } [p]

/-- A cluster `gc-a`, in the shape `deployment.go` reads, that declares the
driving profile. -/
def gcADrivingBuilder : DeploymentBuilder :=
  OSRMResourceBuilder.Deployment
    { Instance :=
        { Name := "gc-a", Namespace := "default", UID := "uid-gc-a",
          Spec := { Profiles := { Driving := some { Name := "driving", EndpointName := "driving",
                                                    MinReplicas := some 2 } } } },
      Scheme := exampleScheme } DrivingProfile

/-- A cluster `three-profiles` that declares the three profiles with different
`minReplicas`: 1 for driving, 2 for cycling, unset for foot. -/
def threeProfilesCluster : OSRMCluster ProfilesSpec :=
  { Name := "three-profiles", Namespace := "default", UID := "uid-three-profiles",
    Spec :=
      { Profiles :=
          { Driving := some { Name := "driving", EndpointName := "driving",
                              MinReplicas := some 1, MaxReplicas := some 3 },
            Cycling := some { Name := "cycling", EndpointName := "cycling",
                              MinReplicas := some 2, MaxReplicas := some 3 },
            Foot := some { Name := "foot", EndpointName := "walking",
                           MinReplicas := none, MaxReplicas := some 3 } } } }

/-- The Deployment builder of `three-profiles` for a profile value. -/
def threeProfilesBuilder (profile : OSRMProfile) : DeploymentBuilder :=
  OSRMResourceBuilder.Deployment { Instance := threeProfilesCluster, Scheme := exampleScheme }
    profile

/-- The identity object of the Deployment of `three-profiles` for a profile value,
as `Build` returns it. -/
def threeProfilesDeployment (profile : OSRMProfile) : Deployment :=
  { Name := "three-profiles" ++ "-" ++ profile, Namespace := "default" }

/-! ## Properties of `SetControllerReference` and `DeploymentBuilder` -/

/-- A successful `SetControllerReference` changes the owner references only. -/
theorem SetControllerReference_frame {P : Type} (owner : OSRMCluster P)
    (controlled om : ObjectMeta) (scheme : Scheme)
    (h : SetControllerReference owner controlled scheme = .ok om) :
    om = { controlled with OwnerReferences := om.OwnerReferences } := by
  simp only [SetControllerReference, bind, Except.bind] at h
  split at h
  · exact absurd h (by simp)
  · split at h
    · exact absurd h (by simp)
    · split at h
      · split at h
        · simp only [Except.ok.injEq] at h
          rw [← h]
        · exact absurd h (by simp)
      · simp only [Except.ok.injEq] at h
        rw [← h]

/-- Whenever `DeploymentBuilder.Update` returns, the object was a Deployment, the
profile is supported and declared by the cluster, and the Deployment's spec is
the one `Update` writes, whether or not the controller reference could be set. -/
theorem DeploymentBuilder.Update_returns (builder : DeploymentBuilder)
    (object o : ClientObject) (err : GoError) (h : builder.Update object = .ok (o, err)) :
    ∃ (d d' : Deployment) (ps : ProfileSpec),
      object = ClientObject.deployment d ∧ o = ClientObject.deployment d' ∧
      builder.getProfileSpec = .ok (some ps) ∧
      d'.Spec =
        { Replicas := ps.MinReplicas,
          Selector := some
            { MatchLabels := [("app", builder.Instance.Name ++ "-" ++ builder.profile)] },
          Template :=
            { ObjectMeta :=
                { Labels := [("app", builder.Instance.Name ++ "-" ++ builder.profile)] },
              Spec :=
                { Containers :=
                    [{ Name := osrmContainerName,
                       Image := builder.getImage,
                       Ports := [{ ContainerPort := 5000 }],
                       Resources :=
                         { Requests := [("memory", MustParse "100Mi"), ("cpu", MustParse "1")] },
                       Command := ["osrm-routed", "--algorithm", "mld"],
                       Args := ["/data/berlin-latest.osrm"] }] } } } := by
  cases object with
  | service s =>
    simp [DeploymentBuilder.Update, ClientObject.toDeployment, bind, Except.bind] at h
  | deployment d =>
    cases hps : builder.getProfileSpec with
    | error e =>
      simp [DeploymentBuilder.Update, ClientObject.toDeployment, bind, Except.bind, hps] at h
    | ok ops =>
      cases ops with
      | none =>
        simp [DeploymentBuilder.Update, ClientObject.toDeployment, bind, Except.bind, hps,
          deref] at h
      | some ps =>
        simp only [DeploymentBuilder.Update, ClientObject.toDeployment, bind, Except.bind, hps,
          deref] at h
        split at h
        · simp only [pure, Except.pure, Except.ok.injEq, Prod.mk.injEq] at h
          exact ⟨d, _, ps, rfl, h.1.symm, rfl, rfl⟩
        · simp only [pure, Except.pure, Except.ok.injEq, Prod.mk.injEq] at h
          exact ⟨d, _, ps, rfl, h.1.symm, rfl, rfl⟩

/-- On a Deployment object, for a supported profile that the cluster declares,
`DeploymentBuilder.Update` returns. -/
theorem DeploymentBuilder.Update_total (builder : DeploymentBuilder) (d : Deployment)
    (ps : ProfileSpec) (h : builder.getProfileSpec = .ok (some ps)) :
    ∃ (o : ClientObject) (err : GoError),
      builder.Update (ClientObject.deployment d) = .ok (o, err) := by
  simp only [DeploymentBuilder.Update, ClientObject.toDeployment, bind, Except.bind, h, deref]
  split
  · exact ⟨_, _, rfl⟩
  · exact ⟨_, _, rfl⟩

/-- On a Deployment object, for a supported profile that the cluster declares,
`DeploymentBuilder.Update` returns a Deployment whose spec is the one it writes. -/
theorem DeploymentBuilder.Update_deployment (builder : DeploymentBuilder) (d : Deployment)
    (ps : ProfileSpec) (h : builder.getProfileSpec = .ok (some ps)) :
    ∃ (d' : Deployment) (err : GoError),
      builder.Update (ClientObject.deployment d) = .ok (ClientObject.deployment d', err) ∧
      d'.Spec =
        { Replicas := ps.MinReplicas,
          Selector := some
            { MatchLabels := [("app", builder.Instance.Name ++ "-" ++ builder.profile)] },
          Template :=
            { ObjectMeta :=
                { Labels := [("app", builder.Instance.Name ++ "-" ++ builder.profile)] },
              Spec :=
                { Containers :=
                    [{ Name := osrmContainerName,
                       Image := builder.getImage,
                       Ports := [{ ContainerPort := 5000 }],
                       Resources :=
                         { Requests := [("memory", MustParse "100Mi"), ("cpu", MustParse "1")] },
                       Command := ["osrm-routed", "--algorithm", "mld"],
                       Args := ["/data/berlin-latest.osrm"] }] } } } := by
  obtain ⟨o, err, hu⟩ := DeploymentBuilder.Update_total builder d ps h
  obtain ⟨_, d', ps', _, rfl, hps, hspec⟩ := DeploymentBuilder.Update_returns builder _ o err hu
  rw [h] at hps
  simp only [Except.ok.injEq, Option.some.injEq] at hps
  subst hps
  exact ⟨d', err, hu, hspec⟩

/-- C1, at the failing input: the driving profile of cluster `rr-config` provides
resource requirements of 4Gi memory (limits and requests), yet after
`DeploymentBuilder.Update` on the object returned by `Build` the first container
requests 100Mi memory and 1 cpu and has no limits, which is not what the profile
provides. -/
theorem C1_update_ignores_profile_resources :
    rrConfigDrivingBuilder.profileResources = some resources4Gi ∧
    (objectAfter (rrConfigDrivingBuilder.Update rrConfigDrivingBuilder.Build.1)).bind
        firstContainerResources =
      some { Limits := [], Requests := [("memory", MustParse "100Mi"), ("cpu", MustParse "1")] } ∧
    (objectAfter (rrConfigDrivingBuilder.Update rrConfigDrivingBuilder.Build.1)).bind
        firstContainerResources ≠ some resources4Gi := by
  refine ⟨by rfl, by rfl, by decide⟩

/-! ## Properties of `ResourceBuilders` -/

/-- The effect of the range loop of `ResourceBuilders` on its local state: one
group of five builders per element, the names and endpoint names in order, and
the range variable left at the last element. -/
theorem ResourceBuilders.foldl_iteration (elements : List ProfileSpec) (st : BuildersState) :
    (elements.foldl ResourceBuilders.iteration st).builders =
        st.builders ++ elements.flatMap (fun _ => profileGroup) ∧
    (elements.foldl ResourceBuilders.iteration st).profiles =
        st.profiles ++ elements.map (fun p => p.Name) ∧
    (elements.foldl ResourceBuilders.iteration st).profilesEndpoints =
        st.profilesEndpoints ++ elements.map (fun p => p.EndpointName) ∧
    (elements.foldl ResourceBuilders.iteration st).store Var.profile =
        (match elements.getLast? with
         | some p => some p
         | none => st.store Var.profile) := by
  induction elements generalizing st with
  | nil => simp
  | cons p ps ih =>
    obtain ⟨h1, h2, h3, h4⟩ := ih (ResourceBuilders.iteration st p)
    simp only [List.foldl_cons, h1, h2, h3, h4]
    refine ⟨?_, ?_, ?_, ?_⟩
    · simp [ResourceBuilders.iteration, profileGroup]
    · simp [ResourceBuilders.iteration]
    · simp [ResourceBuilders.iteration]
    · cases ps with
      | nil => simp [ResourceBuilders.iteration, Store.assign]
      | cons q qs =>
        cases hq : (q :: qs).getLast? with
        | none => simp at hq
        | some r => simp [List.getLast?_cons_cons, hq]

/-- The local state of `ResourceBuilders` when its range loop ends. -/
theorem ResourceBuilders.loop_eq (elements : List ProfileSpec) :
    (ResourceBuilders.loop elements).builders = elements.flatMap (fun _ => profileGroup) ∧
    (ResourceBuilders.loop elements).profiles = elements.map (fun p => p.Name) ∧
    (ResourceBuilders.loop elements).profilesEndpoints =
      elements.map (fun p => p.EndpointName) ∧
    (ResourceBuilders.loop elements).store Var.profile = elements.getLast? := by
  obtain ⟨h1, h2, h3, h4⟩ := ResourceBuilders.foldl_iteration elements {}
  refine ⟨by simpa [ResourceBuilders.loop] using h1, by simpa [ResourceBuilders.loop] using h2,
    by simpa [ResourceBuilders.loop] using h3, ?_⟩
  rw [ResourceBuilders.loop, h4]
  cases elements.getLast? <;> rfl

/-- The list returned by `ResourceBuilders`, in closed form. -/
theorem OSRMResourceBuilder.ResourceBuilders_eq
    (builder : OSRMResourceBuilder (List ProfileSpec)) :
    builder.ResourceBuilders.1 =
      if builder.Instance.Spec.Profiles = [] then []
      else
        builder.Instance.Spec.Profiles.flatMap (fun _ => profileGroup) ++
          [ResourceBuilder.configMap
             (builder.Instance.Spec.Profiles.map (fun p => p.Name))
             (builder.Instance.Spec.Profiles.map (fun p => p.EndpointName)),
           ResourceBuilder.gatewayService (builder.Instance.Spec.Profiles.map (fun p => p.Name)),
           ResourceBuilder.gatewayDeployment
             (builder.Instance.Spec.Profiles.map (fun p => p.Name))] := by
  obtain ⟨h1, h2, h3, _⟩ := ResourceBuilders.loop_eq builder.Instance.Spec.Profiles
  simp only [OSRMResourceBuilder.ResourceBuilders, h1, h2, h3]
  cases hp : builder.Instance.Spec.Profiles with
  | nil => simp
  | cons p ps => simp [profileGroup]

/-- The memory returned with the list of `ResourceBuilders` holds the last
declared profile in the range variable. -/
theorem OSRMResourceBuilder.ResourceBuilders_store
    (builder : OSRMResourceBuilder (List ProfileSpec)) :
    builder.ResourceBuilders.2 Var.profile = builder.Instance.Spec.Profiles.getLast? := by
  obtain ⟨_, _, _, h4⟩ := ResourceBuilders.loop_eq builder.Instance.Spec.Profiles
  simp only [OSRMResourceBuilder.ResourceBuilders]
  split <;> exact h4

/-- Every profile-scoped builder returned by `ResourceBuilders` works, through
its pointer, for the last declared profile. -/
theorem OSRMResourceBuilder.ResourceBuilders_profileOf
    (builder : OSRMResourceBuilder (List ProfileSpec)) (b : ResourceBuilder)
    (hb : b ∈ builder.ResourceBuilders.1) (hg : b.isGateway = false) :
    b.profileOf builder.ResourceBuilders.2 = builder.Instance.Spec.Profiles.getLast? := by
  have hs := OSRMResourceBuilder.ResourceBuilders_store builder
  cases b <;>
    first
    | exact hs
    | simp [ResourceBuilder.isGateway] at hg

/-- C2: for a cluster whose `spec.profiles` is empty, `ResourceBuilders` returns
the empty list: neither a profile-scoped builder nor a gateway builder. -/
theorem C2_no_profiles_no_builders (builder : OSRMResourceBuilder (List ProfileSpec))
    (h : builder.Instance.Spec.Profiles = []) :
    builder.ResourceBuilders.1 = [] := by
  simp [OSRMResourceBuilder.ResourceBuilders, ResourceBuilders.loop, h]

/-- C2 at the cluster `no-profiles`. -/
theorem C2_no_profiles_no_builders_witness :
    noProfilesBuilder.Instance.Spec.Profiles = [] ∧ noProfilesBuilder.ResourceBuilders.1 = [] :=
  ⟨rfl, C2_no_profiles_no_builders noProfilesBuilder rfl⟩

/-- C3, at the failing input: cluster `gc-a` declares the profiles `car` and
`foot`; the Service builder of the first group (index 1 of the returned list)
and the one of the second group (index 6) both build the Service named after
`foot`, the last profile, and none builds the Service named after `car`. -/
theorem C3_profile_builders_all_bound_to_last_profile :
    gcABuilder.Instance.Spec.Profiles.map (fun p => p.Name) = ["car", "foot"] ∧
    gcABuilder.ResourceBuilders.1.get? 1 = some (ResourceBuilder.service Var.profile) ∧
    gcABuilder.ResourceBuilders.1.get? 6 = some (ResourceBuilder.service Var.profile) ∧
    builtServiceName gcABuilder 1 =
      some (gcABuilder.Instance.ChildResourceName "foot" ServiceSuffix) ∧
    builtServiceName gcABuilder 6 =
      some (gcABuilder.Instance.ChildResourceName "foot" ServiceSuffix) ∧
    builtServiceName gcABuilder 1 ≠
      some (gcABuilder.Instance.ChildResourceName "car" ServiceSuffix) := by
  refine ⟨by rfl, by rfl, by rfl, by rfl, by rfl, by decide⟩

/-- C4: for a cluster with at least one profile, the list returned by
`ResourceBuilders` is one group of five profile-scoped builders per declared
profile, followed by the ConfigMap, gateway Service and gateway Deployment
builders, which carry the profile names in declaration order; no builder of
the groups is a gateway builder; and the group of the `k`-th profile is the
one appended, after the groups of the profiles before it, by the iteration in
which the range variable holds the `k`-th profile. -/
theorem C4_profile_groups_then_gateway (builder : OSRMResourceBuilder (List ProfileSpec))
    (h : builder.Instance.Spec.Profiles ≠ []) :
    builder.ResourceBuilders.1 =
        builder.Instance.Spec.Profiles.flatMap (fun _ => profileGroup) ++
          [ResourceBuilder.configMap
             (builder.Instance.Spec.Profiles.map (fun p => p.Name))
             (builder.Instance.Spec.Profiles.map (fun p => p.EndpointName)),
           ResourceBuilder.gatewayService (builder.Instance.Spec.Profiles.map (fun p => p.Name)),
           ResourceBuilder.gatewayDeployment
             (builder.Instance.Spec.Profiles.map (fun p => p.Name))] ∧
    (∀ b ∈ builder.Instance.Spec.Profiles.flatMap (fun _ => profileGroup),
        b.isGateway = false) ∧
    ∀ (k : Nat) (hk : k < builder.Instance.Spec.Profiles.length),
      (ResourceBuilders.loop (builder.Instance.Spec.Profiles.take (k + 1))).builders =
          (ResourceBuilders.loop (builder.Instance.Spec.Profiles.take k)).builders ++
            profileGroup ∧
      (ResourceBuilders.loop (builder.Instance.Spec.Profiles.take (k + 1))).store Var.profile =
          some (builder.Instance.Spec.Profiles.get ⟨k, hk⟩) := by
  refine ⟨?_, ?_, ?_⟩
  · rw [OSRMResourceBuilder.ResourceBuilders_eq, if_neg h]
  · intro b hb
    simp only [List.mem_flatMap, profileGroup] at hb
    obtain ⟨_, _, hb⟩ := hb
    simp only [List.mem_cons, List.mem_singleton, List.not_mem_nil, or_false] at hb
    rcases hb with rfl | rfl | rfl | rfl | rfl <;> rfl
  · intro k hk
    have htake : builder.Instance.Spec.Profiles.take (k + 1) =
        builder.Instance.Spec.Profiles.take k ++
          [builder.Instance.Spec.Profiles.get ⟨k, hk⟩] := by
      rw [List.take_succ, List.getElem?_eq_getElem hk]
      rfl
    rw [htake]
    obtain ⟨h1, _, _, h4⟩ := ResourceBuilders.foldl_iteration
      [builder.Instance.Spec.Profiles.get ⟨k, hk⟩]
      (ResourceBuilders.loop (builder.Instance.Spec.Profiles.take k))
    constructor
    · rw [ResourceBuilders.loop, List.foldl_append]
      simpa [ResourceBuilders.loop] using h1
    · rw [ResourceBuilders.loop, List.foldl_append]
      simpa [ResourceBuilders.loop] using h4

/-- C4 at the cluster `gc-a` with the profiles `car` and `foot`. -/
theorem C4_profile_groups_then_gateway_witness :
    gcABuilder.Instance.Spec.Profiles ≠ [] ∧
    gcABuilder.ResourceBuilders.1 =
      profileGroup ++ profileGroup ++
        [ResourceBuilder.configMap ["car", "foot"] ["driving", "walking"],
         ResourceBuilder.gatewayService ["car", "foot"],
         ResourceBuilder.gatewayDeployment ["car", "foot"]] :=
  ⟨by decide, by
    have h := (C4_profile_groups_then_gateway gcABuilder (by decide)).1
    rw [h]
    rfl⟩

/-- C5, for every cluster: no builder of the list returned by `ResourceBuilders`
is a PodDisruptionBudget builder, so the list does not contain one builder of
each profile-scoped kind of the catalog. -/
theorem C5_no_pod_disruption_budget_builder
    (builder : OSRMResourceBuilder (List ProfileSpec)) :
    builder.ResourceBuilders.1.any ResourceBuilder.isPodDisruptionBudget = false := by
  rw [OSRMResourceBuilder.ResourceBuilders_eq]
  split
  · rfl
  · rw [List.any_eq_false]
    intro b hb
    simp only [List.mem_append, List.mem_flatMap, profileGroup, List.mem_cons,
      List.mem_singleton, List.not_mem_nil, or_false] at hb
    rcases hb with ⟨_, _, rfl | rfl | rfl | rfl | rfl⟩ | rfl | rfl | rfl <;>
      simp [ResourceBuilder.isPodDisruptionBudget]

/-! ## Properties of `ServiceBuilder` -/

/-- The method `setAnnotations` touches the annotations only. -/
theorem ServiceBuilder.setAnnotations_frame (pkg : Internal) (builder : ServiceBuilder)
    (service : Service) :
    (builder.setAnnotations pkg service).Spec = service.Spec ∧
    (builder.setAnnotations pkg service).Name = service.Name ∧
    (builder.setAnnotations pkg service).Namespace = service.Namespace ∧
    (builder.setAnnotations pkg service).Labels = service.Labels ∧
    (builder.setAnnotations pkg service).OwnerReferences = service.OwnerReferences := by
  unfold ServiceBuilder.setAnnotations
  split <;> exact ⟨rfl, rfl, rfl, rfl, rfl⟩

/-- On a Service object `ServiceBuilder.Update` returns, and the Service's spec is
the one it had with the ports, the selector and the type overwritten. -/
theorem ServiceBuilder.Update_service (pkg : Internal) (builder : ServiceBuilder)
    (s : Service) :
    ∃ (s' : Service) (err : GoError),
      builder.Update pkg (ClientObject.service s) = .ok (ClientObject.service s', err) ∧
      s'.Spec =
        { s.Spec with
          Ports :=
            [{ Name := builder.Instance.ChildResourceName builder.profile.Name ServiceSuffix
                 ++ "-port",
               Protocol := Protocol.TCP,
               Port := 80,
               TargetPort := { Type_ := IntStrType.Int, IntVal := 5000 } }],
          Selector :=
            [("app", builder.Instance.ChildResourceName builder.profile.Name ServiceSuffix)],
          Type_ := builder.Instance.Spec.Service.GetType } := by
  simp only [ServiceBuilder.Update, ClientObject.toService, bind, Except.bind]
  split
  · exact ⟨_, _, rfl, (ServiceBuilder.setAnnotations_frame pkg builder _).1⟩
  · exact ⟨_, _, rfl, (ServiceBuilder.setAnnotations_frame pkg builder _).1⟩

/-- C6: for every list of observed resources, `ServiceBuilder.ShouldDeploy` is
true exactly when the PVC named with the PVC suffix for the builder's cluster
and profile is observed bound and the Job named with the Job suffix for the same
cluster and profile is observed completed. -/
theorem C6_service_gate (pkg : Internal) (builder : ServiceBuilder)
    (resources : List RuntimeObject) :
    builder.ShouldDeploy pkg resources = true ↔
      pkg.IsPersistentVolumeClaimBound
          (builder.Instance.ChildResourceName builder.profile.Name PersistentVolumeClaimSuffix)
          resources = true ∧
        pkg.IsJobCompleted
          (builder.Instance.ChildResourceName builder.profile.Name JobSuffix)
          resources = true := by
  simp [ServiceBuilder.ShouldDeploy]

/-- C10: `ServiceBuilder.Update` on any Service returns and leaves exactly one
port, TCP port 80 with the integer target port 5000, whatever ports the Service
had before; and for a supported, declared profile `DeploymentBuilder.Update`
returns and declares the container port 5000 on its only container, the port
the Service targets. -/
theorem C10_service_port_targets_container_port (pkg : Internal) (sb : ServiceBuilder)
    (s : Service) (db : DeploymentBuilder) (d : Deployment) (ps : ProfileSpec)
    (h : db.getProfileSpec = .ok (some ps)) :
    ∃ (s' : Service) (err : GoError) (d' : Deployment) (err' : GoError),
      sb.Update pkg (ClientObject.service s) = .ok (ClientObject.service s', err) ∧
      s'.Spec.Ports =
        [{ Name := sb.Instance.ChildResourceName sb.profile.Name ServiceSuffix ++ "-port",
           Protocol := Protocol.TCP,
           Port := 80,
           TargetPort := { Type_ := IntStrType.Int, IntVal := 5000, StrVal := "" },
           NodePort := 0 }] ∧
      db.Update (ClientObject.deployment d) = .ok (ClientObject.deployment d', err') ∧
      d'.Spec.Template.Spec.Containers.map (fun c => (c.Name, c.Ports)) =
        [(osrmContainerName, [{ ContainerPort := 5000 }])] ∧
      s'.Spec.Ports.map (fun p => p.TargetPort.IntVal) =
        d'.Spec.Template.Spec.Containers.flatMap
          (fun c => c.Ports.map (fun p => p.ContainerPort)) := by
  obtain ⟨s', err, hs, hsspec⟩ := ServiceBuilder.Update_service pkg sb s
  obtain ⟨d', err', hd, hdspec⟩ := DeploymentBuilder.Update_deployment db d ps h
  refine ⟨s', err, d', err', hs, by rw [hsspec], hd, by rw [hdspec]; rfl, ?_⟩
  rw [hsspec, hdspec]
  rfl

/-- C10 at the Service builder of `gc-a` for `car`, on a Service that had two
other ports, and the driving profile of `rr-config`. -/
theorem C10_service_port_targets_container_port_witness :
    liveService.Spec.Ports.length = 2 ∧
    ∃ (ps : ProfileSpec), rrConfigDrivingBuilder.getProfileSpec = .ok (some ps) ∧
      ∃ (s' : Service) (err : GoError) (d' : Deployment) (err' : GoError),
        gcACarServiceBuilder.Update exampleInternal (ClientObject.service liveService) =
          .ok (ClientObject.service s', err) ∧
        s'.Spec.Ports =
          [{ Name :=
               gcACarServiceBuilder.Instance.ChildResourceName
                 gcACarServiceBuilder.profile.Name ServiceSuffix ++ "-port",
             Protocol := Protocol.TCP,
             Port := 80,
             TargetPort := { Type_ := IntStrType.Int, IntVal := 5000, StrVal := "" },
             NodePort := 0 }] ∧
        rrConfigDrivingBuilder.Update (ClientObject.deployment {}) =
          .ok (ClientObject.deployment d', err') ∧
        d'.Spec.Template.Spec.Containers.map (fun c => (c.Name, c.Ports)) =
          [(osrmContainerName, [{ ContainerPort := 5000 }])] ∧
        s'.Spec.Ports.map (fun p => p.TargetPort.IntVal) =
          d'.Spec.Template.Spec.Containers.flatMap
            (fun c => c.Ports.map (fun p => p.ContainerPort)) :=
  ⟨rfl, _, rfl,
    C10_service_port_targets_container_port exampleInternal gcACarServiceBuilder liveService
      rrConfigDrivingBuilder {} _ rfl⟩

/-! ## Owner references, idempotence and frame of `Update` -/

/-- A reference whose API version parses refers to the same object as itself. -/
theorem referSameObject_self (ref : OwnerReference)
    (h : (parseGroup ref.APIVersion).isSome = true) : referSameObject ref ref = true := by
  unfold referSameObject
  cases hp : parseGroup ref.APIVersion with
  | none => simp [hp] at h
  | some g => simp

/-- Upserting a reference a second time changes nothing. -/
theorem upsertOwnerRef_idem (ref : OwnerReference) (h : referSameObject ref ref = true)
    (refs : List OwnerReference) :
    upsertOwnerRef ref (upsertOwnerRef ref refs) = upsertOwnerRef ref refs := by
  induction refs with
  | nil => simp [upsertOwnerRef, h]
  | cons r rs ih =>
    by_cases hr : referSameObject r ref = true
    · simp [upsertOwnerRef, hr, h]
    · simp [upsertOwnerRef, hr, ih]

/-- After an upsert of a controller reference, the controller of the list is that
reference or the controller the list already had. -/
theorem GetControllerOf_upsertOwnerRef (ref : OwnerReference) (hc : ref.Controller = some true)
    (refs : List OwnerReference) :
    GetControllerOf (upsertOwnerRef ref refs) = some ref ∨
      ∃ e, GetControllerOf refs = some e ∧ GetControllerOf (upsertOwnerRef ref refs) = some e := by
  induction refs with
  | nil => left; simp [upsertOwnerRef, GetControllerOf, hc]
  | cons r rs ih =>
    by_cases hr : referSameObject r ref = true
    · left; simp [upsertOwnerRef, hr, GetControllerOf, hc]
    · by_cases hrc : r.Controller = some true
      · right
        exact ⟨r, by simp [GetControllerOf, hrc], by simp [upsertOwnerRef, hr, GetControllerOf, hrc]⟩
      · have h1 : GetControllerOf (upsertOwnerRef ref (r :: rs)) =
            GetControllerOf (upsertOwnerRef ref rs) := by
          simp [upsertOwnerRef, hr, GetControllerOf, hrc]
        have h2 : GetControllerOf (r :: rs) = GetControllerOf rs := by
          simp [GetControllerOf, hrc]
        rw [h1, h2]
        exact ih

/-- What a successful `SetControllerReference` returns. -/
theorem SetControllerReference_ok {P : Type} (owner : OSRMCluster P)
    (controlled om : ObjectMeta) (scheme : Scheme)
    (h : SetControllerReference owner controlled scheme = .ok om) :
    ∃ gvk, scheme.kinds = [gvk] ∧
      validateOwner owner.Namespace controlled.Namespace = .ok () ∧
      (GetControllerOf controlled.OwnerReferences = none ∨
        ∃ e, GetControllerOf controlled.OwnerReferences = some e ∧
          referSameObject e (controllerReference owner gvk) = true) ∧
      om = { controlled with
             OwnerReferences :=
               upsertOwnerRef (controllerReference owner gvk) controlled.OwnerReferences } := by
  unfold SetControllerReference at h
  cases hv : validateOwner owner.Namespace controlled.Namespace with
  | error e => simp [hv, bind, Except.bind] at h
  | ok u =>
    cases hk : scheme.kinds with
    | nil => simp [hv, bind, Except.bind, GVKForObject, hk] at h
    | cons gvk rest =>
      cases rest with
      | cons g2 r2 => simp [hv, bind, Except.bind, GVKForObject, hk] at h
      | nil =>
        refine ⟨gvk, rfl, rfl, ?_⟩
        simp only [hv, bind, Except.bind, GVKForObject, hk] at h
        cases hg : GetControllerOf controlled.OwnerReferences with
        | none =>
          simp only [hg, Except.ok.injEq] at h
          exact ⟨Or.inl rfl, h.symm⟩
        | some e =>
          simp only [hg] at h
          by_cases hr : referSameObject e (controllerReference owner gvk) = true
          · have hr' := hr
            simp only [controllerReference] at hr'
            simp only [hr', if_true, Except.ok.injEq] at h
            exact ⟨Or.inr ⟨e, rfl, hr⟩, h.symm⟩
          · have hr' := hr
            simp only [controllerReference] at hr'
            simp [hr'] at h

/-- When `SetControllerReference` succeeded, setting the reference again on its
result succeeds and changes nothing. -/
theorem SetControllerReference_idem {P : Type} (owner : OSRMCluster P)
    (controlled om : ObjectMeta) (scheme : Scheme) (hs : scheme.WellFormed)
    (h : SetControllerReference owner controlled scheme = .ok om) :
    SetControllerReference owner om scheme = .ok om := by
  obtain ⟨gvk, hk, hv, hc, hom⟩ := SetControllerReference_ok owner controlled om scheme h
  have hself : referSameObject (controllerReference owner gvk) (controllerReference owner gvk)
      = true :=
    referSameObject_self _ (hs gvk (by simp [hk]))
  have hns : om.Namespace = controlled.Namespace := by rw [hom]
  have hrefs : om.OwnerReferences =
      upsertOwnerRef (controllerReference owner gvk) controlled.OwnerReferences := by rw [hom]
  have hup :
      ({ om with
         OwnerReferences :=
           upsertOwnerRef (controllerReference owner gvk) om.OwnerReferences } : ObjectMeta)
        = om := by
    rw [hrefs, upsertOwnerRef_idem _ hself, ← hrefs]
  have hctl : ∃ e, GetControllerOf om.OwnerReferences = some e ∧
      referSameObject e (controllerReference owner gvk) = true := by
    rw [hrefs]
    rcases GetControllerOf_upsertOwnerRef (controllerReference owner gvk) rfl
      controlled.OwnerReferences with h1 | ⟨e, he, h1⟩
    · exact ⟨_, h1, hself⟩
    · rcases hc with hc | ⟨e', he', hr⟩
      · rw [hc] at he; exact absurd he (by simp)
      · rw [he'] at he
        simp only [Option.some.injEq] at he
        subst he
        exact ⟨_, h1, hr⟩
  obtain ⟨e, he, hr⟩ := hctl
  have hr' := hr
  simp only [controllerReference] at hr'
  have hup' := hup
  simp only [controllerReference] at hup'
  unfold SetControllerReference
  simp only [hns, hv, bind, Except.bind, GVKForObject, hk, he, hr', if_true]
  rw [← hns, hup']

/-- The shape of `DeploymentBuilder.Update` on a Deployment, for a supported and
declared profile: the spec is replaced by one that does not depend on the
object, then the controller reference is set on the metadata. -/
theorem DeploymentBuilder.Update_deployment_normal_form (builder : DeploymentBuilder) (ps : ProfileSpec)
    (h : builder.getProfileSpec = .ok (some ps)) :
    ∃ S : DeploymentSpec, ∀ d : Deployment,
      builder.Update (ClientObject.deployment d) =
        match SetControllerReference builder.Instance d.toObjectMeta builder.Scheme with
        | .error err =>
          .ok (ClientObject.deployment { toObjectMeta := d.toObjectMeta, Spec := S },
            some ("failed setting controller reference: " ++ err))
        | .ok om => .ok (ClientObject.deployment { toObjectMeta := om, Spec := S }, none) := by
  refine
    ⟨{ Replicas := ps.MinReplicas,
       Selector := some
         { MatchLabels := [("app", builder.Instance.Name ++ "-" ++ builder.profile)] },
       Template :=
         { ObjectMeta :=
             { Labels := [("app", builder.Instance.Name ++ "-" ++ builder.profile)] },
           Spec :=
             { Containers :=
                 [{ Name := osrmContainerName,
                    Image := builder.getImage,
                    Ports := [{ ContainerPort := 5000 }],
                    Resources :=
                      { Requests := [("memory", MustParse "100Mi"), ("cpu", MustParse "1")] },
                    Command := ["osrm-routed", "--algorithm", "mld"],
                    Args := ["/data/berlin-latest.osrm"] }] } } }, fun d => ?_⟩
  simp only [DeploymentBuilder.Update, ClientObject.toDeployment, bind, Except.bind, h, deref]
  rfl

/-- The shape of `ServiceBuilder.Update` on a Service: a rewrite of the object that
keeps name, namespace and owner references and is stable under a second run,
followed by setting the controller reference on the metadata. -/
theorem ServiceBuilder.Update_service_normal_form (pkg : Internal) (builder : ServiceBuilder) :
    ∃ f : Service → Service,
      (∀ s : Service,
        builder.Update pkg (ClientObject.service s) =
          match SetControllerReference builder.Instance (f s).toObjectMeta builder.Scheme with
          | .error err =>
            .ok (ClientObject.service (f s), some ("failed setting controller reference: " ++ err))
          | .ok om =>
            .ok (ClientObject.service { toObjectMeta := om, Spec := (f s).Spec }, none)) ∧
      (∀ s : Service, (f s).Name = s.Name ∧ (f s).Namespace = s.Namespace ∧
        (f s).UID = s.UID ∧ (f s).OwnerReferences = s.OwnerReferences ∧
        (f s).Labels = pkg.GetLabels builder.Instance.Name builder.Instance.Labels ∧
        (f s).Spec =
          { s.Spec with
            Ports :=
              [{ Name := builder.Instance.ChildResourceName builder.profile.Name ServiceSuffix
                   ++ "-port",
                 Protocol := Protocol.TCP,
                 Port := 80,
                 TargetPort := { Type_ := IntStrType.Int, IntVal := 5000 } }],
            Selector :=
              [("app", builder.Instance.ChildResourceName builder.profile.Name ServiceSuffix)],
            Type_ := builder.Instance.Spec.Service.GetType }) ∧
      ((∀ a d, pkg.ReconcileAnnotations (pkg.ReconcileAnnotations a d) d =
            pkg.ReconcileAnnotations a d) →
        ∀ (s : Service) (refs : List OwnerReference),
          f { f s with OwnerReferences := refs } = { f s with OwnerReferences := refs }) := by
  refine ⟨fun s => builder.setAnnotations pkg
    { s with
      Labels := pkg.GetLabels builder.Instance.Name builder.Instance.Labels,
      Spec :=
        { s.Spec with
          Ports :=
            [{ Name := builder.Instance.ChildResourceName builder.profile.Name ServiceSuffix
                 ++ "-port",
               Protocol := Protocol.TCP,
               Port := 80,
               TargetPort := { Type_ := IntStrType.Int, IntVal := 5000 } }],
          Selector :=
            [("app", builder.Instance.ChildResourceName builder.profile.Name ServiceSuffix)],
          Type_ := builder.Instance.Spec.Service.GetType } }, ?_, ?_, ?_⟩
  · intro s
    simp only [ServiceBuilder.Update, ClientObject.toService, bind, Except.bind]
    rfl
  · intro s
    obtain ⟨h1, h2, h3, h4, h5⟩ := ServiceBuilder.setAnnotations_frame pkg builder
      { s with
        Labels := pkg.GetLabels builder.Instance.Name builder.Instance.Labels,
        Spec :=
          { s.Spec with
            Ports :=
              [{ Name := builder.Instance.ChildResourceName builder.profile.Name ServiceSuffix
                   ++ "-port",
                 Protocol := Protocol.TCP,
                 Port := 80,
                 TargetPort := { Type_ := IntStrType.Int, IntVal := 5000 } }],
            Selector :=
              [("app", builder.Instance.ChildResourceName builder.profile.Name ServiceSuffix)],
            Type_ := builder.Instance.Spec.Service.GetType } }
    refine ⟨h2, h3, ?_, h5, h4, h1⟩
    unfold ServiceBuilder.setAnnotations
    split <;> rfl
  · intro hR s refs
    unfold ServiceBuilder.setAnnotations
    split
    · simp only [hR]
    · rfl

/-- The shape of `GatewayServiceBuilder.Update` on a Service: a rewrite of the
object that keeps name, namespace and owner references and is stable under a
second run, followed by setting the controller reference on the metadata. -/
theorem GatewayServiceBuilder.Update_gateway_normal_form (pkg : Internal)
    (builder : GatewayServiceBuilder) :
    ∃ f : Service → Service,
      (∀ s : Service,
        builder.Update pkg (ClientObject.service s) =
          match SetControllerReference builder.Instance (f s).toObjectMeta builder.Scheme with
          | .error err =>
            .ok (ClientObject.service (f s), some ("failed setting controller reference: " ++ err))
          | .ok om =>
            .ok (ClientObject.service { toObjectMeta := om, Spec := (f s).Spec }, none)) ∧
      (∀ s : Service, (f s).Name = s.Name ∧ (f s).Namespace = s.Namespace ∧
        (f s).UID = s.UID ∧ (f s).OwnerReferences = s.OwnerReferences ∧
        (f s).Labels = pkg.GetLabels builder.Instance.Name builder.Instance.Labels ∧
        (f s).Spec =
          { s.Spec with
            Type_ := ServiceType.ClusterIP,
            Ports :=
              [{ Name := builder.Instance.Name ++ "-port",
                 Protocol := Protocol.TCP,
                 Port := 80,
                 TargetPort := { Type_ := IntStrType.Int, IntVal := 80 } }],
            Selector := [("app", builder.Instance.Name ++ "-" ++ gatewayPostfix)] }) ∧
      (∀ (s : Service) (refs : List OwnerReference),
          f { f s with OwnerReferences := refs } = { f s with OwnerReferences := refs }) := by
  refine ⟨fun s =>
    { s with
      Labels := pkg.GetLabels builder.Instance.Name builder.Instance.Labels,
      Spec :=
        { s.Spec with
          Type_ := ServiceType.ClusterIP,
          Ports :=
            [{ Name := builder.Instance.Name ++ "-port",
               Protocol := Protocol.TCP,
               Port := 80,
               TargetPort := { Type_ := IntStrType.Int, IntVal := 80 } }],
          Selector := [("app", builder.Instance.Name ++ "-" ++ gatewayPostfix)] } }, ?_, ?_, ?_⟩
  · intro s
    simp only [GatewayServiceBuilder.Update, ClientObject.toService, bind, Except.bind]
    rfl
  · intro s
    exact ⟨rfl, rfl, rfl, rfl, rfl, rfl⟩
  · intro s refs
    rfl

/-- A rewrite-then-set-reference update of a Service that succeeded succeeds
again on its result and returns it unchanged. -/
theorem service_update_idem {P : Type} (owner : OSRMCluster P) (scheme : Scheme)
    (hs : scheme.WellFormed) (f : Service → Service)
    (hf : ∀ (s : Service) (refs : List OwnerReference),
      f { f s with OwnerReferences := refs } = { f s with OwnerReferences := refs })
    (s : Service) (om : ObjectMeta)
    (h : SetControllerReference owner (f s).toObjectMeta scheme = .ok om) :
    f { toObjectMeta := om, Spec := (f s).Spec } = { toObjectMeta := om, Spec := (f s).Spec } ∧
    SetControllerReference owner om scheme = .ok om := by
  have hom := SetControllerReference_frame owner (f s).toObjectMeta om scheme h
  have hidem := SetControllerReference_idem owner (f s).toObjectMeta om scheme hs h
  refine ⟨?_, hidem⟩
  have hs1 : ({ toObjectMeta := om, Spec := (f s).Spec } : Service) =
      { f s with OwnerReferences := om.OwnerReferences } := by
    rw [hom]
  rw [hs1]
  exact hf s om.OwnerReferences

/-- A `ServiceBuilder.Update` that succeeded succeeds again on its result and
returns it unchanged. -/
theorem ServiceBuilder.Update_service_idem (pkg : Internal)
    (hR : ∀ a d, pkg.ReconcileAnnotations (pkg.ReconcileAnnotations a d) d =
      pkg.ReconcileAnnotations a d)
    (builder : ServiceBuilder) (hs : builder.Scheme.WellFormed) (o o1 : ClientObject)
    (h : builder.Update pkg o = .ok (o1, none)) :
    builder.Update pkg o1 = .ok (o1, none) := by
  obtain ⟨f, hU, _, hf⟩ := ServiceBuilder.Update_service_normal_form pkg builder
  cases o with
  | deployment d =>
    simp [ServiceBuilder.Update, ClientObject.toService, bind, Except.bind] at h
  | service s =>
    rw [hU] at h
    cases hS : SetControllerReference builder.Instance (f s).toObjectMeta builder.Scheme with
    | error e => simp [hS] at h
    | ok om =>
      simp only [hS, Except.ok.injEq, Prod.mk.injEq, and_true] at h
      obtain ⟨h1, h2⟩ := service_update_idem builder.Instance builder.Scheme hs f (hf hR) s om hS
      rw [← h, hU, h1]
      simp only [h2]

/-- A `GatewayServiceBuilder.Update` that succeeded succeeds again on its result
and returns it unchanged. -/
theorem GatewayServiceBuilder.Update_gateway_idem (pkg : Internal)
    (builder : GatewayServiceBuilder) (hs : builder.Scheme.WellFormed) (o o1 : ClientObject)
    (h : builder.Update pkg o = .ok (o1, none)) :
    builder.Update pkg o1 = .ok (o1, none) := by
  obtain ⟨f, hU, _, hf⟩ := GatewayServiceBuilder.Update_gateway_normal_form pkg builder
  cases o with
  | deployment d =>
    simp [GatewayServiceBuilder.Update, ClientObject.toService, bind, Except.bind] at h
  | service s =>
    rw [hU] at h
    cases hS : SetControllerReference builder.Instance (f s).toObjectMeta builder.Scheme with
    | error e => simp [hS] at h
    | ok om =>
      simp only [hS, Except.ok.injEq, Prod.mk.injEq, and_true] at h
      obtain ⟨h1, h2⟩ := service_update_idem builder.Instance builder.Scheme hs f hf s om hS
      rw [← h, hU, h1]
      simp only [h2]

/-- A `DeploymentBuilder.Update` that succeeded succeeds again on its result and
returns it unchanged. -/
theorem DeploymentBuilder.Update_deployment_idem (builder : DeploymentBuilder)
    (hs : builder.Scheme.WellFormed) (o o1 : ClientObject)
    (h : builder.Update o = .ok (o1, none)) :
    builder.Update o1 = .ok (o1, none) := by
  obtain ⟨d, _, ps, rfl, _, hps, _⟩ := DeploymentBuilder.Update_returns builder o o1 none h
  obtain ⟨S, hU⟩ := DeploymentBuilder.Update_deployment_normal_form builder ps hps
  rw [hU] at h
  cases hS : SetControllerReference builder.Instance d.toObjectMeta builder.Scheme with
  | error e => simp [hS] at h
  | ok om =>
    simp only [hS, Except.ok.injEq, Prod.mk.injEq, and_true] at h
    have h2 := SetControllerReference_idem builder.Instance d.toObjectMeta om builder.Scheme hs hS
    rw [← h, hU]
    simp only [h2]

/-- A string other than the empty string has positive length. -/
theorem length_pos_of_ne_empty (s : String) (h : s ≠ "") : 0 < s.length := by
  rcases s with ⟨l⟩
  cases l with
  | nil => exact absurd rfl h
  | cons a l => simp [String.length]

/-- A string of positive length is not the empty string. -/
theorem ne_empty_of_length_pos (s : String) (h : 0 < s.length) : s ≠ "" := by
  intro hs
  rw [hs] at h
  exact absurd h (by decide)

/-- A name joined with a dash is never empty. -/
theorem dash_join_ne_empty (c p : String) : c ++ "-" ++ p ≠ "" := by
  apply ne_empty_of_length_pos
  have h1 : ("-" : String).length = 1 := by decide
  rw [String.length_append, String.length_append, h1]
  omega

/-- The characters of a name joined with a dash. -/
theorem dash_join_data (c p : String) : (c ++ "-" ++ p).data = c.data ++ '-' :: p.data := by
  rw [String.data_append, String.data_append]
  simp

/-- The profile Service name of a cluster for a profile with a name: the cluster
name, a dash, the profile name. -/
theorem ChildResourceName_service {P : Type} (cluster : OSRMCluster P) (p : String)
    (h : p ≠ "") : cluster.ChildResourceName p ServiceSuffix = cluster.Name ++ "-" ++ p := by
  have hp := length_pos_of_ne_empty p h
  have hs : ¬ (ServiceSuffix.length > 0) := by decide
  simp only [OSRMCluster.ChildResourceName, hp, hs, if_true, if_false, gt_iff_lt]

/-- A child name of a cluster with a name is never empty. -/
theorem ChildResourceName_ne_empty {P : Type} (cluster : OSRMCluster P) (p suffix : String)
    (h : cluster.Name ≠ "") : cluster.ChildResourceName p suffix ≠ "" := by
  unfold OSRMCluster.ChildResourceName
  simp only
  split
  · exact dash_join_ne_empty _ _
  · split
    · exact dash_join_ne_empty _ _
    · exact h

/-- Two lists split at the first occurrence of a separator agree on both sides. -/
theorem split_at_separator (sep : Char) (a b x y : List Char) (ha : sep ∉ a) (hb : sep ∉ b)
    (h : a ++ sep :: x = b ++ sep :: y) : a = b ∧ x = y := by
  induction a generalizing b with
  | nil =>
    cases b with
    | nil => simpa using h
    | cons c cs =>
      simp only [List.nil_append, List.cons_append, List.cons.injEq] at h
      exact absurd (h.1 ▸ List.mem_cons_self _ _) hb
  | cons c cs ih =>
    cases b with
    | nil =>
      simp only [List.nil_append, List.cons_append, List.cons.injEq] at h
      exact absurd (h.1 ▸ List.mem_cons_self _ _) ha
    | cons e es =>
      simp only [List.cons_append, List.cons.injEq] at h
      obtain ⟨h1, h2⟩ := ih es (fun hm => ha (List.mem_cons_of_mem _ hm))
        (fun hm => hb (List.mem_cons_of_mem _ hm)) h.2
      exact ⟨by rw [h.1, h1], h2⟩

/-- Joining with a dash is injective when the right parts contain no dash. -/
theorem dash_join_injective (c p c' p' : String) (hp : '-' ∉ p.data) (hp' : '-' ∉ p'.data)
    (h : c ++ "-" ++ p = c' ++ "-" ++ p') : c = c' ∧ p = p' := by
  have hd : c.data ++ '-' :: p.data = c'.data ++ '-' :: p'.data := by
    rw [← dash_join_data, ← dash_join_data, h]
  have hr : p.data.reverse ++ '-' :: c.data.reverse = p'.data.reverse ++ '-' :: c'.data.reverse := by
    have := congrArg List.reverse hd
    simpa using this
  obtain ⟨h1, h2⟩ := split_at_separator '-' _ _ _ _ (by simpa using hp) (by simpa using hp') hr
  exact ⟨String.ext (List.reverse_injective h2), String.ext (List.reverse_injective h1)⟩

/-- Joining with a dash is injective in the right part for a fixed left part. -/
theorem dash_join_left_cancel (c p p' : String) (h : c ++ "-" ++ p = c ++ "-" ++ p') :
    p = p' := by
  have hd : c.data ++ '-' :: p.data = c.data ++ '-' :: p'.data := by
    rw [← dash_join_data, ← dash_join_data, h]
  have := List.append_cancel_left hd
  simp only [List.cons.injEq, true_and] at this
  exact String.ext this

/-- A name joined with a dash differs from its left part. -/
theorem dash_join_ne_left (c p : String) : c ++ "-" ++ p ≠ c := by
  intro h
  have h1 : ("-" : String).length = 1 := by decide
  have := congrArg String.length h
  rw [String.length_append, String.length_append, h1] at this
  omega

/-- Reconciling the annotations of the example helpers twice is reconciling once. -/
theorem exampleInternal_reconcile_idem (a d : StringMap) :
    exampleInternal.ReconcileAnnotations (exampleInternal.ReconcileAnnotations a d) d =
      exampleInternal.ReconcileAnnotations a d := by
  simp only [exampleInternal, List.filter_append, List.filter_filter, Bool.and_self]
  have hd : d.filter (fun kv => !d.any (fun e => e.1 == kv.1)) = [] := by
    rw [List.filter_eq_nil_iff]
    intro kv hkv
    simp only [Bool.not_eq_true, Bool.not_eq_false', List.any_eq_true]
    exact ⟨kv, hkv, by simp⟩
  rw [hd, List.nil_append]

/-- The example scheme registers a group/version that parses. -/
theorem exampleScheme_wellFormed : exampleScheme.WellFormed := by
  intro gvk hg
  simp only [exampleScheme, List.mem_singleton] at hg
  subst hg
  decide

/-- On a Service object, `ServiceBuilder.Update` returns a Service that has the
name, namespace and UID of the object, the operator's labels, and the spec of
the object with ports, selector and type overwritten. -/
theorem ServiceBuilder.Update_service_frame (pkg : Internal) (builder : ServiceBuilder) (s : Service) :
    ∃ (s' : Service) (err : GoError),
      builder.Update pkg (ClientObject.service s) = .ok (ClientObject.service s', err) ∧
      s'.Name = s.Name ∧ s'.Namespace = s.Namespace ∧ s'.UID = s.UID ∧
      s'.Labels = pkg.GetLabels builder.Instance.Name builder.Instance.Labels ∧
      s'.Spec =
        { s.Spec with
          Ports :=
            [{ Name := builder.Instance.ChildResourceName builder.profile.Name ServiceSuffix
                 ++ "-port",
               Protocol := Protocol.TCP,
               Port := 80,
               TargetPort := { Type_ := IntStrType.Int, IntVal := 5000 } }],
          Selector :=
            [("app", builder.Instance.ChildResourceName builder.profile.Name ServiceSuffix)],
          Type_ := builder.Instance.Spec.Service.GetType } := by
  obtain ⟨f, hU, hf, _⟩ := ServiceBuilder.Update_service_normal_form pkg builder
  obtain ⟨h1, h2, h3, _, h5, h6⟩ := hf s
  rw [hU]
  cases hS : SetControllerReference builder.Instance (f s).toObjectMeta builder.Scheme with
  | error e => exact ⟨f s, _, rfl, h1, h2, h3, h5, h6⟩
  | ok om =>
    have hom := SetControllerReference_frame _ _ _ _ hS
    refine ⟨_, _, rfl, ?_, ?_, ?_, ?_, h6⟩
    · show om.Name = s.Name
      rw [hom]; exact h1
    · show om.Namespace = s.Namespace
      rw [hom]; exact h2
    · show om.UID = s.UID
      rw [hom]; exact h3
    · show om.Labels = _
      rw [hom]; exact h5

/-- On a Service object, `GatewayServiceBuilder.Update` returns a Service that has
the name, namespace and UID of the object, the operator's labels, and the spec
of the object with type, ports and selector overwritten. -/
theorem GatewayServiceBuilder.Update_gateway_frame (pkg : Internal) (builder : GatewayServiceBuilder)
    (s : Service) :
    ∃ (s' : Service) (err : GoError),
      builder.Update pkg (ClientObject.service s) = .ok (ClientObject.service s', err) ∧
      s'.Name = s.Name ∧ s'.Namespace = s.Namespace ∧ s'.UID = s.UID ∧
      s'.Labels = pkg.GetLabels builder.Instance.Name builder.Instance.Labels ∧
      s'.Spec =
        { s.Spec with
          Type_ := ServiceType.ClusterIP,
          Ports :=
            [{ Name := builder.Instance.Name ++ "-port",
               Protocol := Protocol.TCP,
               Port := 80,
               TargetPort := { Type_ := IntStrType.Int, IntVal := 80 } }],
          Selector := [("app", builder.Instance.Name ++ "-" ++ gatewayPostfix)] } := by
  obtain ⟨f, hU, hf, _⟩ := GatewayServiceBuilder.Update_gateway_normal_form pkg builder
  obtain ⟨h1, h2, h3, _, h5, h6⟩ := hf s
  rw [hU]
  cases hS : SetControllerReference builder.Instance (f s).toObjectMeta builder.Scheme with
  | error e => exact ⟨f s, _, rfl, h1, h2, h3, h5, h6⟩
  | ok om =>
    have hom := SetControllerReference_frame _ _ _ _ hS
    refine ⟨_, _, rfl, ?_, ?_, ?_, ?_, h6⟩
    · show om.Name = s.Name
      rw [hom]; exact h1
    · show om.Namespace = s.Namespace
      rw [hom]; exact h2
    · show om.UID = s.UID
      rw [hom]; exact h3
    · show om.Labels = _
      rw [hom]; exact h5

/-- C11: for a Service builder and a Deployment builder of the same cluster `c`
and the same profile `p` (a profile with a name, supported and declared),
`ServiceBuilder.Update` on any Service returns and leaves the selector exactly
`app: c-p`, and `DeploymentBuilder.Update` returns and puts exactly the label
`app: c-p` on the pod template: the selector is the pod template's label set. -/
theorem C11_service_selects_deployment_pods (pkg : Internal) (sb : ServiceBuilder)
    (s : Service) (db : DeploymentBuilder) (d : Deployment) (ps : ProfileSpec)
    (hcluster : db.Instance.Name = sb.Instance.Name) (hprofile : db.profile = sb.profile.Name)
    (hname : sb.profile.Name ≠ "") (h : db.getProfileSpec = .ok (some ps)) :
    ∃ (s' : Service) (err : GoError) (d' : Deployment) (err' : GoError),
      sb.Update pkg (ClientObject.service s) = .ok (ClientObject.service s', err) ∧
      s'.Spec.Selector = [("app", sb.Instance.Name ++ "-" ++ sb.profile.Name)] ∧
      db.Update (ClientObject.deployment d) = .ok (ClientObject.deployment d', err') ∧
      d'.Spec.Template.ObjectMeta.Labels =
        [("app", sb.Instance.Name ++ "-" ++ sb.profile.Name)] ∧
      d'.Spec.Template.ObjectMeta.Labels = s'.Spec.Selector := by
  obtain ⟨s', err, hs, hsspec⟩ := ServiceBuilder.Update_service pkg sb s
  obtain ⟨d', err', hd, hdspec⟩ := DeploymentBuilder.Update_deployment db d ps h
  have hsel : s'.Spec.Selector = [("app", sb.Instance.Name ++ "-" ++ sb.profile.Name)] := by
    rw [hsspec, ChildResourceName_service _ _ hname]
  have hlab : d'.Spec.Template.ObjectMeta.Labels =
      [("app", sb.Instance.Name ++ "-" ++ sb.profile.Name)] := by
    rw [hdspec, hcluster, hprofile]
  exact ⟨s', err, d', err', hs, hsel, hd, hlab, by rw [hlab, hsel]⟩

/-- C11 at cluster `gc-a` and profile `driving`. -/
theorem C11_service_selects_deployment_pods_witness :
    gcADrivingBuilder.Instance.Name = annotatedServiceBuilder.Instance.Name ∧
    gcADrivingBuilder.profile = annotatedServiceBuilder.profile.Name ∧
    annotatedServiceBuilder.profile.Name ≠ "" ∧
    ∃ (ps : ProfileSpec), gcADrivingBuilder.getProfileSpec = .ok (some ps) ∧
      ∃ (s' : Service) (err : GoError) (d' : Deployment) (err' : GoError),
        annotatedServiceBuilder.Update exampleInternal (ClientObject.service liveService) =
          .ok (ClientObject.service s', err) ∧
        s'.Spec.Selector =
          [("app", annotatedServiceBuilder.Instance.Name ++ "-" ++
            annotatedServiceBuilder.profile.Name)] ∧
        gcADrivingBuilder.Update (ClientObject.deployment {}) =
          .ok (ClientObject.deployment d', err') ∧
        d'.Spec.Template.ObjectMeta.Labels =
          [("app", annotatedServiceBuilder.Instance.Name ++ "-" ++
            annotatedServiceBuilder.profile.Name)] ∧
        d'.Spec.Template.ObjectMeta.Labels = s'.Spec.Selector :=
  ⟨rfl, rfl, by decide, _, rfl,
    C11_service_selects_deployment_pods exampleInternal annotatedServiceBuilder liveService
      gcADrivingBuilder {} _ rfl rfl (by decide) rfl⟩

/-- C12: `GatewayServiceBuilder.Update` on any Service returns and leaves the type
ClusterIP, exactly one port, TCP port 80, and the selector exactly
`app: c-gateway` for the cluster name `c`, whatever the Service had before. -/
theorem C12_gateway_service_spec (pkg : Internal) (builder : GatewayServiceBuilder)
    (s : Service) :
    ∃ (s' : Service) (err : GoError),
      builder.Update pkg (ClientObject.service s) = .ok (ClientObject.service s', err) ∧
      s'.Spec.Type_ = ServiceType.ClusterIP ∧
      s'.Spec.Ports.map (fun p => (p.Protocol, p.Port)) = [(Protocol.TCP, 80)] ∧
      s'.Spec.Selector = [("app", builder.Instance.Name ++ "-" ++ "gateway")] := by
  obtain ⟨s', err, hU, _, _, _, _, hspec⟩ := GatewayServiceBuilder.Update_gateway_frame pkg builder s
  exact ⟨s', err, hU, by rw [hspec], by rw [hspec]; rfl, by rw [hspec]; rfl⟩

/-- When the object is already controlled by a different owner,
`SetControllerReference` returns an error. -/
theorem SetControllerReference_controlled {P : Type} (owner : OSRMCluster P)
    (controlled : ObjectMeta) (scheme : Scheme)
    (h : controlledByAnother owner scheme controlled.OwnerReferences = true) :
    ∃ msg, SetControllerReference owner controlled scheme = .error msg := by
  cases hS : SetControllerReference owner controlled scheme with
  | error msg => exact ⟨msg, rfl⟩
  | ok om =>
    obtain ⟨gvk, hk, _, hc, _⟩ := SetControllerReference_ok owner controlled om scheme hS
    unfold controlledByAnother at h
    rcases hc with hc | ⟨e, he, hr⟩
    · simp [hc] at h
    · simp [he, hk, hr] at h

/-- A successful `SetControllerReference` on an object without owner references
leaves exactly one, which points at the cluster. -/
theorem SetControllerReference_fresh {P : Type} (owner : OSRMCluster P)
    (controlled om : ObjectMeta) (scheme : Scheme)
    (h : SetControllerReference owner controlled scheme = .ok om)
    (hempty : controlled.OwnerReferences = []) :
    ∃ r, om.OwnerReferences = [r] ∧ r.pointsAt owner := by
  obtain ⟨gvk, _, _, _, hom⟩ := SetControllerReference_ok owner controlled om scheme h
  refine ⟨controllerReference owner gvk, ?_, rfl, rfl, rfl⟩
  rw [hom, hempty]
  rfl

/-- On a Deployment, for a supported and declared profile, `DeploymentBuilder.Update`
leaves the metadata labels as they were. -/
theorem DeploymentBuilder.Update_labels (builder : DeploymentBuilder) (d : Deployment)
    (ps : ProfileSpec) (h : builder.getProfileSpec = .ok (some ps)) :
    ∃ (d' : Deployment) (err : GoError),
      builder.Update (ClientObject.deployment d) = .ok (ClientObject.deployment d', err) ∧
      d'.Labels = d.Labels := by
  obtain ⟨S, hU⟩ := DeploymentBuilder.Update_deployment_normal_form builder ps h
  rw [hU]
  cases hS : SetControllerReference builder.Instance d.toObjectMeta builder.Scheme with
  | error e => exact ⟨_, _, rfl, rfl⟩
  | ok om =>
    have hom := SetControllerReference_frame _ _ _ _ hS
    refine ⟨_, _, rfl, ?_⟩
    show om.Labels = d.Labels
    rw [hom]

/-- C13: for helpers whose annotation reconciliation is idempotent and a scheme
whose registered group/version parses, `Update` of the Deployment, Service and
gateway Service builders is idempotent, a successful `Update` applied again to
its result succeeds and returns the result unchanged, and deterministic: equal
builders on equal objects give equal results. -/
theorem C13_update_idempotent_and_deterministic (pkg : Internal)
    (hR : ∀ a d, pkg.ReconcileAnnotations (pkg.ReconcileAnnotations a d) d =
      pkg.ReconcileAnnotations a d)
    (db : DeploymentBuilder) (sb : ServiceBuilder) (gb : GatewayServiceBuilder)
    (hdb : db.Scheme.WellFormed) (hsb : sb.Scheme.WellFormed) (hgb : gb.Scheme.WellFormed) :
    (∀ o o1 : ClientObject, db.Update o = .ok (o1, none) → db.Update o1 = .ok (o1, none)) ∧
    (∀ o o1 : ClientObject,
      sb.Update pkg o = .ok (o1, none) → sb.Update pkg o1 = .ok (o1, none)) ∧
    (∀ o o1 : ClientObject,
      gb.Update pkg o = .ok (o1, none) → gb.Update pkg o1 = .ok (o1, none)) ∧
    (∀ (db' : DeploymentBuilder) (o o' : ClientObject),
      db' = db → o' = o → db'.Update o' = db.Update o) ∧
    (∀ (sb' : ServiceBuilder) (o o' : ClientObject),
      sb' = sb → o' = o → sb'.Update pkg o' = sb.Update pkg o) ∧
    (∀ (gb' : GatewayServiceBuilder) (o o' : ClientObject),
      gb' = gb → o' = o → gb'.Update pkg o' = gb.Update pkg o) := by
  refine ⟨fun o o1 h => DeploymentBuilder.Update_deployment_idem db hdb o o1 h,
    fun o o1 h => ServiceBuilder.Update_service_idem pkg hR sb hsb o o1 h,
    fun o o1 h => GatewayServiceBuilder.Update_gateway_idem pkg gb hgb o o1 h, ?_, ?_, ?_⟩
  · rintro _ _ _ rfl rfl; rfl
  · rintro _ _ _ rfl rfl; rfl
  · rintro _ _ _ rfl rfl; rfl

/-- C13 at the Deployment of `rr-config`, an annotated profile Service of `gc-a`
and the gateway Service of `gc-a`. -/
theorem C13_update_idempotent_and_deterministic_witness :
    (rrConfigDrivingBuilder.Update rrConfigDrivingBuilder.Build.1 =
        .ok (resultObject (rrConfigDrivingBuilder.Update rrConfigDrivingBuilder.Build.1), none) ∧
      rrConfigDrivingBuilder.Update
          (resultObject (rrConfigDrivingBuilder.Update rrConfigDrivingBuilder.Build.1)) =
        .ok (resultObject (rrConfigDrivingBuilder.Update rrConfigDrivingBuilder.Build.1), none)) ∧
    (annotatedServiceBuilder.Update exampleInternal (ClientObject.service liveService) =
        .ok (resultObject
          (annotatedServiceBuilder.Update exampleInternal (ClientObject.service liveService)),
          none) ∧
      annotatedServiceBuilder.Update exampleInternal
          (resultObject
            (annotatedServiceBuilder.Update exampleInternal (ClientObject.service liveService))) =
        .ok (resultObject
          (annotatedServiceBuilder.Update exampleInternal (ClientObject.service liveService)),
          none)) ∧
    (gcAGatewayBuilder.Update exampleInternal gcAGatewayBuilder.Build.1 =
        .ok (resultObject (gcAGatewayBuilder.Update exampleInternal gcAGatewayBuilder.Build.1),
          none) ∧
      gcAGatewayBuilder.Update exampleInternal
          (resultObject (gcAGatewayBuilder.Update exampleInternal gcAGatewayBuilder.Build.1)) =
        .ok (resultObject (gcAGatewayBuilder.Update exampleInternal gcAGatewayBuilder.Build.1),
          none)) :=
  have hC := C13_update_idempotent_and_deterministic exampleInternal
    exampleInternal_reconcile_idem rrConfigDrivingBuilder annotatedServiceBuilder
    gcAGatewayBuilder exampleScheme_wellFormed exampleScheme_wellFormed exampleScheme_wellFormed
  ⟨⟨rfl, hC.1 rrConfigDrivingBuilder.Build.1 _ rfl⟩,
   ⟨rfl, hC.2.1 (ClientObject.service liveService) _ rfl⟩,
   ⟨rfl, hC.2.2.1 gcAGatewayBuilder.Build.1 _ rfl⟩⟩

/-! ## Owner references, panics, labels and names of the children -/

/-- C14: for the Deployment, Service and gateway Service builders, when `Update`
succeeds on the object returned by `Build` the child carries exactly one owner
reference, which has the cluster's name and UID and is marked as controller;
and when the object is already controlled by a different owner `Update` returns
an error (for the Deployment builder: for a supported and declared profile). -/
theorem C14_controller_reference (pkg : Internal) (db : DeploymentBuilder)
    (sb : ServiceBuilder) (gb : GatewayServiceBuilder) :
    (∀ o : ClientObject, db.Update db.Build.1 = .ok (o, none) →
      ∃ r, o.GetOwnerReferences = [r] ∧ r.pointsAt db.Instance) ∧
    (∀ o : ClientObject, sb.Update pkg sb.Build.1 = .ok (o, none) →
      ∃ r, o.GetOwnerReferences = [r] ∧ r.pointsAt sb.Instance) ∧
    (∀ o : ClientObject, gb.Update pkg gb.Build.1 = .ok (o, none) →
      ∃ r, o.GetOwnerReferences = [r] ∧ r.pointsAt gb.Instance) ∧
    (∀ (d : Deployment) (ps : ProfileSpec), db.getProfileSpec = .ok (some ps) →
      controlledByAnother db.Instance db.Scheme d.OwnerReferences = true →
      ∃ (o : ClientObject) (msg : String),
        db.Update (ClientObject.deployment d) = .ok (o, some msg)) ∧
    (∀ s : Service, controlledByAnother sb.Instance sb.Scheme s.OwnerReferences = true →
      ∃ (o : ClientObject) (msg : String),
        sb.Update pkg (ClientObject.service s) = .ok (o, some msg)) ∧
    (∀ s : Service, controlledByAnother gb.Instance gb.Scheme s.OwnerReferences = true →
      ∃ (o : ClientObject) (msg : String),
        gb.Update pkg (ClientObject.service s) = .ok (o, some msg)) := by
  refine ⟨?_, ?_, ?_, ?_, ?_, ?_⟩
  · intro o h
    obtain ⟨d, _, ps, hd, _, hps, _⟩ := DeploymentBuilder.Update_returns db _ o none h
    obtain ⟨S, hU⟩ := DeploymentBuilder.Update_deployment_normal_form db ps hps
    rw [hd, hU] at h
    cases hS : SetControllerReference db.Instance d.toObjectMeta db.Scheme with
    | error e => simp [hS] at h
    | ok om =>
      simp only [hS, Except.ok.injEq, Prod.mk.injEq, and_true] at h
      have hempty : d.OwnerReferences = [] := by
        have hd' : d = { Name := db.Instance.Name ++ "-" ++ db.profile,
                         Namespace := db.Instance.Namespace } := by
          simp only [DeploymentBuilder.Build, ClientObject.deployment.injEq] at hd
          exact hd.symm
        rw [hd']
      obtain ⟨r, hr, hp⟩ := SetControllerReference_fresh db.Instance _ om db.Scheme hS hempty
      exact ⟨r, by rw [← h]; exact hr, hp⟩
  · intro o h
    obtain ⟨f, hU, hf, _⟩ := ServiceBuilder.Update_service_normal_form pkg sb
    obtain ⟨s0, hb, h0⟩ : ∃ s0 : Service,
        sb.Build.1 = ClientObject.service s0 ∧ s0.OwnerReferences = [] := ⟨_, rfl, rfl⟩
    rw [hb, hU] at h
    cases hS : SetControllerReference sb.Instance (f s0).toObjectMeta sb.Scheme with
    | error e => simp [hS] at h
    | ok om =>
      simp only [hS, Except.ok.injEq, Prod.mk.injEq, and_true] at h
      obtain ⟨r, hr, hp⟩ := SetControllerReference_fresh sb.Instance _ om sb.Scheme hS
        (by rw [(hf s0).2.2.2.1, h0])
      exact ⟨r, by rw [← h]; exact hr, hp⟩
  · intro o h
    obtain ⟨f, hU, hf, _⟩ := GatewayServiceBuilder.Update_gateway_normal_form pkg gb
    obtain ⟨s0, hb, h0⟩ : ∃ s0 : Service,
        gb.Build.1 = ClientObject.service s0 ∧ s0.OwnerReferences = [] := ⟨_, rfl, rfl⟩
    rw [hb, hU] at h
    cases hS : SetControllerReference gb.Instance (f s0).toObjectMeta gb.Scheme with
    | error e => simp [hS] at h
    | ok om =>
      simp only [hS, Except.ok.injEq, Prod.mk.injEq, and_true] at h
      obtain ⟨r, hr, hp⟩ := SetControllerReference_fresh gb.Instance _ om gb.Scheme hS
        (by rw [(hf s0).2.2.2.1, h0])
      exact ⟨r, by rw [← h]; exact hr, hp⟩
  · intro d ps hps hc
    obtain ⟨S, hU⟩ := DeploymentBuilder.Update_deployment_normal_form db ps hps
    obtain ⟨msg, hS⟩ := SetControllerReference_controlled db.Instance d.toObjectMeta db.Scheme hc
    rw [hU]
    simp only [hS]
    exact ⟨_, _, rfl⟩
  · intro s hc
    obtain ⟨f, hU, hf, _⟩ := ServiceBuilder.Update_service_normal_form pkg sb
    obtain ⟨msg, hS⟩ := SetControllerReference_controlled sb.Instance (f s).toObjectMeta
      sb.Scheme (by rw [(hf s).2.2.2.1]; exact hc)
    rw [hU]
    simp only [hS]
    exact ⟨_, _, rfl⟩
  · intro s hc
    obtain ⟨f, hU, hf, _⟩ := GatewayServiceBuilder.Update_gateway_normal_form pkg gb
    obtain ⟨msg, hS⟩ := SetControllerReference_controlled gb.Instance (f s).toObjectMeta
      gb.Scheme (by rw [(hf s).2.2.2.1]; exact hc)
    rw [hU]
    simp only [hS]
    exact ⟨_, _, rfl⟩

/-- C14 at the Deployment of `rr-config`, the profile Service of the annotated
`gc-a` and the gateway Service of `gc-a`: `Update` succeeds on the built objects,
and returns an error on objects controlled by the Deployment `someone-else`. -/
theorem C14_controller_reference_witness :
    (rrConfigDrivingBuilder.Update rrConfigDrivingBuilder.Build.1 =
        .ok (resultObject (rrConfigDrivingBuilder.Update rrConfigDrivingBuilder.Build.1), none) ∧
      ∃ r, (resultObject (rrConfigDrivingBuilder.Update
          rrConfigDrivingBuilder.Build.1)).GetOwnerReferences = [r] ∧
        r.pointsAt rrConfigDrivingBuilder.Instance) ∧
    (annotatedServiceBuilder.Update exampleInternal annotatedServiceBuilder.Build.1 =
        .ok (resultObject
          (annotatedServiceBuilder.Update exampleInternal annotatedServiceBuilder.Build.1),
          none) ∧
      ∃ r, (resultObject (annotatedServiceBuilder.Update exampleInternal
          annotatedServiceBuilder.Build.1)).GetOwnerReferences = [r] ∧
        r.pointsAt annotatedServiceBuilder.Instance) ∧
    (controlledByAnother rrConfigDrivingBuilder.Instance rrConfigDrivingBuilder.Scheme
        foreignDeployment.OwnerReferences = true ∧
      ∃ (o : ClientObject) (msg : String),
        rrConfigDrivingBuilder.Update (ClientObject.deployment foreignDeployment) =
          .ok (o, some msg)) ∧
    (controlledByAnother gcAGatewayBuilder.Instance gcAGatewayBuilder.Scheme
        foreignService.OwnerReferences = true ∧
      ∃ (o : ClientObject) (msg : String),
        gcAGatewayBuilder.Update exampleInternal (ClientObject.service foreignService) =
          .ok (o, some msg)) :=
  have hC := C14_controller_reference exampleInternal rrConfigDrivingBuilder
    annotatedServiceBuilder gcAGatewayBuilder
  ⟨⟨rfl, hC.1 _ rfl⟩, ⟨rfl, hC.2.1 _ rfl⟩,
   ⟨by decide, hC.2.2.2.1 foreignDeployment _ rfl (by decide)⟩,
   ⟨by decide, hC.2.2.2.2.2 foreignService (by decide)⟩⟩

/-- C15 fails at cluster `rr-config` and the unknown profile `car`:
`DeploymentBuilder.Update` on the object returned by `Build` does not return an
error value, it panics with `Profile car is not supported`. -/
theorem C15_unknown_profile_counterexample :
    rrConfigCarBuilder.Update rrConfigCarBuilder.Build.1 =
      .error (Panic.message "Profile car is not supported") := by
  rfl

/-- C15, amended: for every profile value that is not one of the supported
profiles, `DeploymentBuilder.Update` on a Deployment panics with the message
`Profile <value> is not supported`, the same on every call, and returns neither
success nor an error value. -/
theorem C15_unknown_profile_panics (builder : DeploymentBuilder) (d : Deployment)
    (h : ¬ OSRMProfile.supported builder.profile) :
    builder.Update (ClientObject.deployment d) =
      .error (Panic.message ("Profile " ++ builder.profile ++ " is not supported")) := by
  simp only [OSRMProfile.supported, not_or] at h
  obtain ⟨h1, h2, h3⟩ := h
  simp only [DeploymentBuilder.Update, ClientObject.toDeployment, bind, Except.bind,
    DeploymentBuilder.getProfileSpec, h1, h2, h3, if_false]

/-- C15, amended, at cluster `rr-config` and the unknown profile `car`. -/
theorem C15_unknown_profile_panics_witness :
    ¬ OSRMProfile.supported rrConfigCarBuilder.profile ∧
    rrConfigCarBuilder.Update (ClientObject.deployment foreignDeployment) =
      .error (Panic.message ("Profile " ++ rrConfigCarBuilder.profile ++ " is not supported")) :=
  ⟨by simp only [OSRMProfile.supported]; decide,
   C15_unknown_profile_panics rrConfigCarBuilder foreignDeployment
     (by simp only [OSRMProfile.supported]; decide)⟩

/-- C16, at the failing input: after `DeploymentBuilder.Update` on the object
returned by `Build` for the driving profile of `rr-config`, the Deployment has
no metadata labels, neither `app.kubernetes.io/name=osrm` nor
`app.kubernetes.io/instance=rr-config`; the sibling `ServiceBuilder.Update` does
write the labels computed by `metadata.GetLabels`. -/
theorem C16_deployment_without_operator_labels :
    (objectAfter (rrConfigDrivingBuilder.Update rrConfigDrivingBuilder.Build.1)).map
        ClientObject.GetLabels = some [] ∧
    (objectAfter (gcACarServiceBuilder.Update exampleInternal gcACarServiceBuilder.Build.1)).map
        ClientObject.GetLabels =
      some (exampleInternal.GetLabels gcACarServiceBuilder.Instance.Name
        gcACarServiceBuilder.Instance.Labels) ∧
    exampleInternal.GetLabels gcACarServiceBuilder.Instance.Name
        gcACarServiceBuilder.Instance.Labels =
      [("app.kubernetes.io/name", "osrm"), ("app.kubernetes.io/instance", "gc-a")] := by
  refine ⟨by rfl, by rfl, by rfl⟩

/-- C17: `Build` of the Deployment, Service and gateway Service builders returns
no error and an object that has the cluster's namespace, the child's name and
nothing else: no UID, labels, annotations or owner references and an empty spec;
the name is not empty (for the two Service builders: when the cluster has a
name). -/
theorem C17_build_identity_only (db : DeploymentBuilder) (sb : ServiceBuilder)
    (gb : GatewayServiceBuilder) :
    db.Build =
      (ClientObject.deployment
        { Name := db.Instance.Name ++ "-" ++ db.profile, Namespace := db.Instance.Namespace,
          UID := "", Labels := [], Annotations := [], OwnerReferences := [],
          Spec := { Replicas := none, Selector := none,
                    Template := { ObjectMeta := {}, Spec := { Volumes := [], Containers := [] } } } },
       none) ∧
    db.Build.1.GetName ≠ "" ∧
    sb.Build =
      (ClientObject.service
        { Name := sb.Instance.ChildResourceName sb.profile.Name ServiceSuffix,
          Namespace := sb.Instance.Namespace,
          UID := "", Labels := [], Annotations := [], OwnerReferences := [],
          Spec := { Ports := [], Selector := [], ClusterIP := "", Type_ := ServiceType.unset,
                    SessionAffinity := "" } },
       none) ∧
    (sb.Instance.Name ≠ "" → sb.Build.1.GetName ≠ "") ∧
    gb.Build =
      (ClientObject.service
        { Name := gb.Instance.Name, Namespace := gb.Instance.Namespace,
          UID := "", Labels := [], Annotations := [], OwnerReferences := [],
          Spec := { Ports := [], Selector := [], ClusterIP := "", Type_ := ServiceType.unset,
                    SessionAffinity := "" } },
       none) ∧
    (gb.Instance.Name ≠ "" → gb.Build.1.GetName ≠ "") := by
  refine ⟨rfl, ?_, rfl, ?_, rfl, ?_⟩
  · exact dash_join_ne_empty _ _
  · intro h
    show sb.Instance.ChildResourceName sb.profile.Name ServiceSuffix ≠ ""
    exact ChildResourceName_ne_empty _ _ _ h
  · intro h
    exact h

/-- C17 at the Deployment of `rr-config`, the profile Service of `gc-a` for `car`
and the gateway Service of `gc-a`. -/
theorem C17_build_identity_only_witness :
    gcACarServiceBuilder.Instance.Name ≠ "" ∧ gcAGatewayBuilder.Instance.Name ≠ "" ∧
    rrConfigDrivingBuilder.Build.1.GetName = "rr-config-driving" ∧
    gcACarServiceBuilder.Build.1.GetName = "gc-a-car" ∧
    gcACarServiceBuilder.Build.1.GetName ≠ "" ∧
    gcAGatewayBuilder.Build.1.GetName = "gc-a" ∧
    gcAGatewayBuilder.Build.1.GetName ≠ "" :=
  have hC := C17_build_identity_only rrConfigDrivingBuilder gcACarServiceBuilder
    gcAGatewayBuilder
  ⟨by decide, by decide, by rfl, by rfl, hC.2.2.2.1 (by decide), by rfl,
    hC.2.2.2.2.2 (by decide)⟩

/-- C18: on every Service, `ServiceBuilder.Update` and
`GatewayServiceBuilder.Update` return and leave the name, the namespace and the
UID as they were, and the spec as it was except for type, ports and selector;
in particular the cluster IP and the session affinity are unchanged. -/
theorem C18_service_update_frame (pkg : Internal) (sb : ServiceBuilder)
    (gb : GatewayServiceBuilder) (s : Service) :
    (∃ (s' : Service) (err : GoError),
      sb.Update pkg (ClientObject.service s) = .ok (ClientObject.service s', err) ∧
      s'.Name = s.Name ∧ s'.Namespace = s.Namespace ∧ s'.UID = s.UID ∧
      s'.Spec.ClusterIP = s.Spec.ClusterIP ∧
      s'.Spec.SessionAffinity = s.Spec.SessionAffinity ∧
      s'.Spec =
        { s.Spec with
          Type_ := s'.Spec.Type_, Ports := s'.Spec.Ports, Selector := s'.Spec.Selector }) ∧
    (∃ (s' : Service) (err : GoError),
      gb.Update pkg (ClientObject.service s) = .ok (ClientObject.service s', err) ∧
      s'.Name = s.Name ∧ s'.Namespace = s.Namespace ∧ s'.UID = s.UID ∧
      s'.Spec.ClusterIP = s.Spec.ClusterIP ∧
      s'.Spec.SessionAffinity = s.Spec.SessionAffinity ∧
      s'.Spec =
        { s.Spec with
          Type_ := s'.Spec.Type_, Ports := s'.Spec.Ports, Selector := s'.Spec.Selector }) := by
  constructor
  · obtain ⟨s', err, hU, h1, h2, h3, _, hspec⟩ := ServiceBuilder.Update_service_frame pkg sb s
    exact ⟨s', err, hU, h1, h2, h3, by rw [hspec], by rw [hspec], by rw [hspec]⟩
  · obtain ⟨s', err, hU, h1, h2, h3, _, hspec⟩ := GatewayServiceBuilder.Update_gateway_frame pkg gb s
    exact ⟨s', err, hU, h1, h2, h3, by rw [hspec], by rw [hspec], by rw [hspec]⟩

/-- C19, at the failing input: cluster `undeclared` declares no profile;
`driving` is a supported profile and `getProfileSpec` returns nil for it;
`DeploymentBuilder.Update` on the object returned by `Build` panics on the nil
dereference `profileSpec.MinReplicas`. -/
theorem C19_undeclared_profile_nil_dereference :
    OSRMProfile.supported undeclaredDrivingBuilder.profile ∧
    undeclaredDrivingBuilder.getProfileSpec = .ok none ∧
    undeclaredDrivingBuilder.Update undeclaredDrivingBuilder.Build.1 =
      .error Panic.nilDereference := by
  refine ⟨Or.inl rfl, by rfl, by rfl⟩

/-- C20 fails for the clusters `gc-a` and `gc-a-b`: the Deployment of `gc-a` for
a profile `b-car` and the Deployment of `gc-a-b` for `car` get the same name,
and the profile Service of `gc-a` for a profile `b` gets the name of the gateway
Service of `gc-a-b`. -/
theorem C20_child_names_collide_counterexample :
    ("gc-a", "b-car") ≠ ("gc-a-b", "car") ∧
    (deploymentBuilderOf "gc-a" "b-car").Build.1.GetName =
      (deploymentBuilderOf "gc-a-b" "car").Build.1.GetName ∧
    (serviceBuilderOf "gc-a" "b").Build.1.GetName =
      (gatewayBuilderOf "gc-a-b" "car").Build.1.GetName := by
  refine ⟨by decide, by decide, by decide⟩

/-- C20, amended: the Deployment names built by `DeploymentBuilder.Build` differ
for two profiles of clusters with the same name, and differ for different pairs
(cluster name, profile) whenever neither profile contains a dash; the profile
Service name of a cluster equals the gateway Service name of a cluster exactly
when that cluster is named like the profile Service, which is never the case
for the same cluster and a profile with a name. -/
theorem C20_child_names_injective_without_dash (db db' : DeploymentBuilder)
    (sb : ServiceBuilder) (gb : GatewayServiceBuilder) :
    (db.Instance.Name = db'.Instance.Name → db.profile ≠ db'.profile →
      db.Build.1.GetName ≠ db'.Build.1.GetName) ∧
    ('-' ∉ db.profile.toList → '-' ∉ db'.profile.toList →
      (db.Instance.Name, db.profile) ≠ (db'.Instance.Name, db'.profile) →
      db.Build.1.GetName ≠ db'.Build.1.GetName) ∧
    (sb.Build.1.GetName = gb.Build.1.GetName ↔
      gb.Instance.Name = sb.Instance.ChildResourceName sb.profile.Name ServiceSuffix) ∧
    (sb.profile.Name ≠ "" → gb.Instance.Name = sb.Instance.Name →
      sb.Build.1.GetName ≠ gb.Build.1.GetName) := by
  refine ⟨?_, ?_, ?_, ?_⟩
  · intro hc hp hn
    simp only [DeploymentBuilder.Build, ClientObject.GetName] at hn
    rw [hc] at hn
    exact hp (dash_join_left_cancel _ _ _ hn)
  · intro hd hd' hne hn
    simp only [DeploymentBuilder.Build, ClientObject.GetName] at hn
    obtain ⟨h1, h2⟩ := dash_join_injective _ _ _ _ hd hd' hn
    exact hne (by rw [h1, h2])
  · simp only [ServiceBuilder.Build, GatewayServiceBuilder.Build, ClientObject.GetName]
    exact eq_comm
  · intro hp hc hn
    simp only [ServiceBuilder.Build, GatewayServiceBuilder.Build, ClientObject.GetName] at hn
    rw [ChildResourceName_service _ _ hp, hc] at hn
    exact dash_join_ne_left _ _ hn

/-- C20, amended, at the clusters `gc-a` and `gc-a-b` with the profile `car`. -/
theorem C20_child_names_injective_without_dash_witness :
    '-' ∉ (deploymentBuilderOf "gc-a" "car").profile.toList ∧
    '-' ∉ (deploymentBuilderOf "gc-a-b" "car").profile.toList ∧
    ((deploymentBuilderOf "gc-a" "car").Instance.Name, (deploymentBuilderOf "gc-a" "car").profile)
      ≠ ((deploymentBuilderOf "gc-a-b" "car").Instance.Name,
          (deploymentBuilderOf "gc-a-b" "car").profile) ∧
    (deploymentBuilderOf "gc-a" "car").Build.1.GetName ≠
      (deploymentBuilderOf "gc-a-b" "car").Build.1.GetName ∧
    (serviceBuilderOf "gc-a" "car").profile.Name ≠ "" ∧
    (serviceBuilderOf "gc-a" "car").Build.1.GetName ≠
      (gatewayBuilderOf "gc-a" "car").Build.1.GetName :=
  have hC := C20_child_names_injective_without_dash (deploymentBuilderOf "gc-a" "car")
    (deploymentBuilderOf "gc-a-b" "car") (serviceBuilderOf "gc-a" "car")
    (gatewayBuilderOf "gc-a" "car")
  ⟨by decide, by decide, by decide, hC.2.1 (by decide) (by decide) (by decide), by decide,
    hC.2.2.2 (by decide) rfl⟩

/-! ## Name, replicas and pod template of the profile Deployment -/

/-- The profile spec `getProfileSpec` returns for each supported profile: the
field of `Spec.Profiles` of that profile. -/
theorem DeploymentBuilder.getProfileSpec_supported (builder : DeploymentBuilder) :
    (builder.profile = DrivingProfile →
      builder.getProfileSpec = .ok builder.Instance.Spec.Profiles.Driving) ∧
    (builder.profile = CyclingProfile →
      builder.getProfileSpec = .ok builder.Instance.Spec.Profiles.Cycling) ∧
    (builder.profile = FootProfile →
      builder.getProfileSpec = .ok builder.Instance.Spec.Profiles.Foot) := by
  have h1 : CyclingProfile ≠ DrivingProfile := by decide
  have h2 : FootProfile ≠ DrivingProfile := by decide
  have h3 : FootProfile ≠ CyclingProfile := by decide
  refine ⟨?_, ?_, ?_⟩
  · intro h
    simp only [DeploymentBuilder.getProfileSpec, h, if_true]
  · intro h
    simp only [DeploymentBuilder.getProfileSpec, h, h1, if_true, if_false]
  · intro h
    simp only [DeploymentBuilder.getProfileSpec, h, h2, h3, if_true, if_false]

/-- C7 fails at cluster `rr-config` and profile `car`: the identity object of
`DeploymentBuilder.Build` is named `rr-config-car`, not
`rr-config-car-deployment`. -/
theorem C7_deployment_name_counterexample :
    rrConfigCarBuilder.Build.1.GetName = "rr-config-car" ∧
    rrConfigCarBuilder.Build.1.GetName ≠ "rr-config-car-deployment" := by
  refine ⟨by rfl, by decide⟩

/-- C7, amended: for every cluster named `c` and profile `p`, `Build` of the
profile Deployment builder returns no error and an identity object named `c-p`,
the cluster name, a dash and the profile, with no suffix; for a profile with a
name this is the name built with a deployment suffix, under which the tests look
the Deployment up, exactly when that suffix is empty. -/
theorem C7_deployment_name_is_cluster_dash_profile (builder : DeploymentBuilder)
    (suffix : String) :
    builder.Build.1.GetName = builder.Instance.Name ++ "-" ++ builder.profile ∧
    builder.Build.2 = none ∧
    (builder.profile ≠ "" →
      (builder.Build.1.GetName = builder.Instance.ChildResourceName builder.profile suffix ↔
        suffix = "")) := by
  refine ⟨rfl, rfl, ?_⟩
  intro hp
  have hpos := length_pos_of_ne_empty _ hp
  show builder.Instance.Name ++ "-" ++ builder.profile =
    builder.Instance.ChildResourceName builder.profile suffix ↔ suffix = ""
  constructor
  · intro h
    by_contra hs
    have hspos := length_pos_of_ne_empty _ hs
    simp only [OSRMCluster.ChildResourceName, hpos, hspos, if_true, gt_iff_lt] at h
    exact dash_join_ne_left _ _ h.symm
  · intro hs
    subst hs
    have h0 : ¬ (0 < ("" : String).length) := by decide
    simp only [OSRMCluster.ChildResourceName, hpos, h0, if_true, if_false, gt_iff_lt]

/-- C7, amended, at cluster `rr-config` and profile `car`: the name is
`rr-config-car`, the name built with the empty suffix and not the one built with
the suffix `deployment`. -/
theorem C7_deployment_name_is_cluster_dash_profile_witness :
    rrConfigCarBuilder.profile ≠ "" ∧
    rrConfigCarBuilder.Build.1.GetName = "rr-config-car" ∧
    rrConfigCarBuilder.Build.1.GetName =
      rrConfigCarBuilder.Instance.ChildResourceName rrConfigCarBuilder.profile "" ∧
    rrConfigCarBuilder.Build.1.GetName ≠
      rrConfigCarBuilder.Instance.ChildResourceName rrConfigCarBuilder.profile "deployment" :=
  ⟨by decide, by rfl,
   ((C7_deployment_name_is_cluster_dash_profile rrConfigCarBuilder "").2.2 (by decide)).2 rfl,
   fun h =>
     absurd (((C7_deployment_name_is_cluster_dash_profile rrConfigCarBuilder
       "deployment").2.2 (by decide)).1 h) (by decide)⟩

/-- C8: for each supported profile that the cluster declares, driving, cycling
or foot with the profile spec in `Spec.Profiles.Driving`, `Spec.Profiles.Cycling`
or `Spec.Profiles.Foot`, `DeploymentBuilder.Update` on a Deployment returns and
leaves `spec.replicas` equal to the `minReplicas` of that profile's spec, unset
when `minReplicas` is unset. -/
theorem C8_replicas_are_min_replicas (builder : DeploymentBuilder) (d : Deployment)
    (ps : ProfileSpec) :
    (builder.profile = DrivingProfile → builder.Instance.Spec.Profiles.Driving = some ps →
      ∃ (d' : Deployment) (err : GoError),
        builder.Update (ClientObject.deployment d) = .ok (ClientObject.deployment d', err) ∧
        d'.Spec.Replicas = ps.MinReplicas) ∧
    (builder.profile = CyclingProfile → builder.Instance.Spec.Profiles.Cycling = some ps →
      ∃ (d' : Deployment) (err : GoError),
        builder.Update (ClientObject.deployment d) = .ok (ClientObject.deployment d', err) ∧
        d'.Spec.Replicas = ps.MinReplicas) ∧
    (builder.profile = FootProfile → builder.Instance.Spec.Profiles.Foot = some ps →
      ∃ (d' : Deployment) (err : GoError),
        builder.Update (ClientObject.deployment d) = .ok (ClientObject.deployment d', err) ∧
        d'.Spec.Replicas = ps.MinReplicas) := by
  obtain ⟨hD, hC, hF⟩ := DeploymentBuilder.getProfileSpec_supported builder
  refine ⟨?_, ?_, ?_⟩
  · intro hp hs
    obtain ⟨d', err, hu, hspec⟩ :=
      DeploymentBuilder.Update_deployment builder d ps (by rw [hD hp, hs])
    exact ⟨d', err, hu, by rw [hspec]⟩
  · intro hp hs
    obtain ⟨d', err, hu, hspec⟩ :=
      DeploymentBuilder.Update_deployment builder d ps (by rw [hC hp, hs])
    exact ⟨d', err, hu, by rw [hspec]⟩
  · intro hp hs
    obtain ⟨d', err, hu, hspec⟩ :=
      DeploymentBuilder.Update_deployment builder d ps (by rw [hF hp, hs])
    exact ⟨d', err, hu, by rw [hspec]⟩

/-- C8 at cluster `three-profiles`, on the objects `Build` returns: `Update`
succeeds and leaves 1 replica for driving, 2 for cycling, and unset replicas for
foot, whose `minReplicas` is unset. -/
theorem C8_replicas_are_min_replicas_witness :
    (∃ ps : ProfileSpec,
      (threeProfilesBuilder DrivingProfile).profile = DrivingProfile ∧
      (threeProfilesBuilder DrivingProfile).Instance.Spec.Profiles.Driving = some ps ∧
      ps.MinReplicas = some 1 ∧
      (threeProfilesBuilder DrivingProfile).Build.1 =
        ClientObject.deployment (threeProfilesDeployment DrivingProfile) ∧
      (threeProfilesBuilder DrivingProfile).Update (threeProfilesBuilder DrivingProfile).Build.1 =
        .ok (resultObject ((threeProfilesBuilder DrivingProfile).Update
          (threeProfilesBuilder DrivingProfile).Build.1), none) ∧
      (resultObject ((threeProfilesBuilder DrivingProfile).Update
        (threeProfilesBuilder DrivingProfile).Build.1)).replicas = some (some 1) ∧
      ∃ (d' : Deployment) (err : GoError),
        (threeProfilesBuilder DrivingProfile).Update
            (ClientObject.deployment (threeProfilesDeployment DrivingProfile)) =
          .ok (ClientObject.deployment d', err) ∧
        d'.Spec.Replicas = ps.MinReplicas) ∧
    (∃ ps : ProfileSpec,
      (threeProfilesBuilder CyclingProfile).profile = CyclingProfile ∧
      (threeProfilesBuilder CyclingProfile).Instance.Spec.Profiles.Cycling = some ps ∧
      ps.MinReplicas = some 2 ∧
      (threeProfilesBuilder CyclingProfile).Build.1 =
        ClientObject.deployment (threeProfilesDeployment CyclingProfile) ∧
      (threeProfilesBuilder CyclingProfile).Update (threeProfilesBuilder CyclingProfile).Build.1 =
        .ok (resultObject ((threeProfilesBuilder CyclingProfile).Update
          (threeProfilesBuilder CyclingProfile).Build.1), none) ∧
      (resultObject ((threeProfilesBuilder CyclingProfile).Update
        (threeProfilesBuilder CyclingProfile).Build.1)).replicas = some (some 2) ∧
      ∃ (d' : Deployment) (err : GoError),
        (threeProfilesBuilder CyclingProfile).Update
            (ClientObject.deployment (threeProfilesDeployment CyclingProfile)) =
          .ok (ClientObject.deployment d', err) ∧
        d'.Spec.Replicas = ps.MinReplicas) ∧
    (∃ ps : ProfileSpec,
      (threeProfilesBuilder FootProfile).profile = FootProfile ∧
      (threeProfilesBuilder FootProfile).Instance.Spec.Profiles.Foot = some ps ∧
      ps.MinReplicas = none ∧
      (threeProfilesBuilder FootProfile).Build.1 =
        ClientObject.deployment (threeProfilesDeployment FootProfile) ∧
      (threeProfilesBuilder FootProfile).Update (threeProfilesBuilder FootProfile).Build.1 =
        .ok (resultObject ((threeProfilesBuilder FootProfile).Update
          (threeProfilesBuilder FootProfile).Build.1), none) ∧
      (resultObject ((threeProfilesBuilder FootProfile).Update
        (threeProfilesBuilder FootProfile).Build.1)).replicas = some none ∧
      ∃ (d' : Deployment) (err : GoError),
        (threeProfilesBuilder FootProfile).Update
            (ClientObject.deployment (threeProfilesDeployment FootProfile)) =
          .ok (ClientObject.deployment d', err) ∧
        d'.Spec.Replicas = ps.MinReplicas) :=
  ⟨⟨_, rfl, rfl, rfl, rfl, rfl, rfl,
      (C8_replicas_are_min_replicas (threeProfilesBuilder DrivingProfile)
        (threeProfilesDeployment DrivingProfile) _).1 rfl rfl⟩,
   ⟨_, rfl, rfl, rfl, rfl, rfl, rfl,
      (C8_replicas_are_min_replicas (threeProfilesBuilder CyclingProfile)
        (threeProfilesDeployment CyclingProfile) _).2.1 rfl rfl⟩,
   ⟨_, rfl, rfl, rfl, rfl, rfl, rfl,
      (C8_replicas_are_min_replicas (threeProfilesBuilder FootProfile)
        (threeProfilesDeployment FootProfile) _).2.2 rfl rfl⟩⟩

/-- For a supported profile that the cluster declares, `DeploymentBuilder.Update`
on a Deployment returns and leaves a pod template without volumes, whose only
container, the OSRM container, runs `osrm-routed --algorithm mld` on the dataset
`/data/berlin-latest.osrm` without a volume mount. -/
theorem DeploymentBuilder.Update_mounts_nothing (builder : DeploymentBuilder) (d : Deployment)
    (ps : ProfileSpec) (h : builder.getProfileSpec = .ok (some ps)) :
    ∃ (d' : Deployment) (err : GoError),
      builder.Update (ClientObject.deployment d) = .ok (ClientObject.deployment d', err) ∧
      d'.Spec.Template.Spec.Volumes = [] ∧
      d'.Spec.Template.Spec.Containers.map
          (fun c => (c.Name, c.Command, c.Args, c.VolumeMounts)) =
        [(osrmContainerName, ["osrm-routed", "--algorithm", "mld"],
          ["/data/berlin-latest.osrm"], [])] ∧
      d'.mountsClaim = false := by
  obtain ⟨d', err, hu, hspec⟩ := DeploymentBuilder.Update_deployment builder d ps h
  refine ⟨d', err, hu, by rw [hspec], by rw [hspec]; rfl, ?_⟩
  simp [Deployment.mountsClaim, hspec]

/-- C9, at the failing input: `DeploymentBuilder.Update` on the object returned
by `Build` for the driving profile of `rr-config` succeeds and leaves a pod
template that declares no volume and whose only container, the OSRM container,
runs `osrm-routed --algorithm mld /data/berlin-latest.osrm` without a volume
mount: the pod template does not mount the profile's PersistentVolumeClaim. -/
theorem C9_pod_template_mounts_no_claim :
    rrConfigDrivingBuilder.Update rrConfigDrivingBuilder.Build.1 =
      .ok (resultObject (rrConfigDrivingBuilder.Update rrConfigDrivingBuilder.Build.1), none) ∧
    (podSpecAfter (rrConfigDrivingBuilder.Update rrConfigDrivingBuilder.Build.1)).map
        (fun p => p.Volumes) = some [] ∧
    (podSpecAfter (rrConfigDrivingBuilder.Update rrConfigDrivingBuilder.Build.1)).map
        (fun p => p.Containers.map (fun c => (c.Name, c.Command, c.Args, c.VolumeMounts))) =
      some [("osrm-backend", ["osrm-routed", "--algorithm", "mld"],
        ["/data/berlin-latest.osrm"], [])] ∧
    mountsClaimAfter (rrConfigDrivingBuilder.Update rrConfigDrivingBuilder.Build.1) =
      some false := by
  refine ⟨by rfl, by rfl, by rfl, by rfl⟩

end OSRMOperator
